import Mathlib

/-!
# DateTime and GlobalPosition: the C++ wrapper of the Calendar-Date-Time library

A shallow embedding of `src/cpp/datetime.cpp` and `src/cpp/globalPosition.cpp`.

* C++ `double` values are embedded as exact rationals (`ℚ`); the specification
  describes the Julian date as a real number with ordinary real arithmetic.
  The one exception is `DmsToDeg`, whose result is rounded to IEEE 754
  binary64 operation by operation (`roundDouble`), because there the rounding
  decides what `DegToDms` returns.
* C++ `int` values are embedded as `Int`; the wrapper does no integer
  arithmetic of its own apart from `period + 1` in `fullMoon` and the
  `tm` offsets in `setSystem`.
* Every member function becomes a function from the object state (and the
  arguments) to the new object state and the returned value.
* The functions of `cdtlib.c` that the wrapper calls are not among the
  sources.  The wrapper is embedded over an arbitrary library `CdtLib`, and
  the general theorems hold for every such library.  A concrete calendar
  library written from the specification is used for the concrete instances.
-/

/-! ## Enumerations of cdtlib.h -/

/-- Modelled from the spec: the `CDT_Event` enumeration of `cdtlib.h` (the header
is not among the sources).  The tags are the ones named in `datetime.cpp` and
in the data model of the specification; distinct enumerators are distinct. -/
inductive CDT_Event
  | CDT_User
  | CDT_System
  | CDT_SunRise
  | CDT_SunSet
  | CDT_MoonRise
  | CDT_MoonSet
  | CDT_AstronomicalDawn
  | CDT_AstronomicalDusk
  | CDT_CivilDawn
  | CDT_CivilDusk
  | CDT_NauticalDawn
  | CDT_NauticalDusk
  | CDT_Spring
  | CDT_Summer
  | CDT_Fall
  | CDT_Winter
  | CDT_NewMoon
  | CDT_FullMoon
  | CDT_Easter
  deriving DecidableEq

/-- Modelled from the spec: the `CDT_Flag` enumeration of `cdtlib.h` (the header
is not among the sources).  The codes are the ones named in `datetime.cpp`:
the validation codes, and the outcomes of the rise/set solver. -/
inductive CDT_Flag
  | CDT_None
  | CDT_HasValidDateTime
  | CDT_HasValidDate
  | CDT_HasValidTime
  | CDT_HasInvalidYear
  | CDT_HasInvalidMonth
  | CDT_HasInvalidDay
  | CDT_HasInvalidHour
  | CDT_HasInvalidMinute
  | CDT_HasInvalidSecond
  | CDT_HasInvalidMillisecond
  | CDT_Rises
  | CDT_NeverRises
  | CDT_Sets
  | CDT_NeverSets
  | CDT_Light
  | CDT_Dark
  deriving DecidableEq

open CDT_Event CDT_Flag

/-! ## Data model -/

/-- The seven calendar values written by `CDT_CalendarDate` through its
output pointers (`&m_year`, ..., `&m_millisecond`). -/
structure CalendarFields where
  year : Int
  month : Int
  day : Int
  hour : Int
  minute : Int
  second : Int
  millisecond : Int
  deriving DecidableEq

/-- The functions of `cdtlib.c` called by the wrapper, as a parameter of the
embedding.  `CDT_RiseSet` returns the flag together with the value left in
`*hours` (which the caller initialises to `0.0`); `CDT_EasterDay` returns the
month and the day it writes. -/
structure CdtLib where
  CDT_JulianDate : Int → Int → Int → Int → Int → Int → Int → ℚ
  CDT_CalendarDate : ℚ → CalendarFields
  CDT_ValidDateTime : Int → Int → Int → Int → Int → Int → Int → CDT_Flag
  CDT_RiseSet : CDT_Event → ℚ → ℚ → ℚ → ℚ → CDT_Flag × ℚ
  CDT_SolsticeGMT : CDT_Event → Int → ℚ
  CDT_NewMoonGMT : Int → Int → ℚ
  CDT_EasterDay : Int → Int × Int

/-- The data members of `class GlobalPosition` (globalposition.h). -/
structure GlobalPosition where
  m_locationName : String
  m_zoneName : String
  m_lat : ℚ
  m_lon : ℚ
  m_gmt : ℚ
  deriving DecidableEq

namespace GlobalPosition

/-- The accessor `GlobalPosition::gmtDiff()`. -/
def gmtDiff (gp : GlobalPosition) : ℚ := gp.m_gmt

/-- The accessor `GlobalPosition::latitude()`. -/
def latitude (gp : GlobalPosition) : ℚ := gp.m_lat

/-- The accessor `GlobalPosition::longitude()`. -/
def longitude (gp : GlobalPosition) : ℚ := gp.m_lon

end GlobalPosition

/-- The data members of `class DateTime` (datetime.h). -/
structure DateTime where
  m_jdate : ℚ
  m_year : Int
  m_month : Int
  m_day : Int
  m_hour : Int
  m_minute : Int
  m_second : Int
  m_millisecond : Int
  m_event : CDT_Event
  m_flag : CDT_Flag
  deriving DecidableEq

/-- The fields of `struct tm` read by `setSystem` after `localtime`. -/
structure Tm where
  tm_year : Int
  tm_mon : Int
  tm_mday : Int
  tm_hour : Int
  tm_min : Int
  tm_sec : Int

namespace DateTime

/-- The seven stored calendar fields of a DateTime, as one record. -/
def fields (s : DateTime) : CalendarFields :=
  ⟨s.m_year, s.m_month, s.m_day, s.m_hour, s.m_minute, s.m_second, s.m_millisecond⟩

/-! ## Private helpers of DateTime -/

/-- The method `DateTime::calculateJulianDate`: recompute `m_jdate` from the fields. -/
def calculateJulianDate (L : CdtLib) (s : DateTime) : DateTime × ℚ :=
  let jd := L.CDT_JulianDate s.m_year s.m_month s.m_day
    s.m_hour s.m_minute s.m_second s.m_millisecond
  ({ s with m_jdate := jd }, jd)

/-- The method `DateTime::isValid`: store the validator's code in `m_flag` and
return whether it is `CDT_HasValidDateTime`. -/
def isValid (L : CdtLib) (s : DateTime) : DateTime × Bool :=
  let f := L.CDT_ValidDateTime s.m_year s.m_month s.m_day
    s.m_hour s.m_minute s.m_second s.m_millisecond
  ({ s with m_flag := f }, if f ≠ CDT_HasValidDateTime then false else true)

/-- The method `DateTime::calculateCalendarDate`: recompute the fields from `m_jdate`,
then validate. -/
def calculateCalendarDate (L : CdtLib) (s : DateTime) : DateTime × Bool :=
  let c := L.CDT_CalendarDate s.m_jdate
  isValid L { s with m_year := c.year, m_month := c.month, m_day := c.day,
                     m_hour := c.hour, m_minute := c.minute, m_second := c.second,
                     m_millisecond := c.millisecond }

/-- The method `DateTime::calculateSolstice(event, gp)`. -/
def calculateSolstice (L : CdtLib) (s : DateTime) (event : CDT_Event)
    (gp : GlobalPosition) : DateTime × Bool :=
  let s1 := { s with m_jdate := L.CDT_SolsticeGMT event s.m_year }
  let s2 := { s1 with m_jdate := s1.m_jdate + gp.gmtDiff / 24 }
  let s3 := (calculateCalendarDate L s2).1
  isValid L s3

/-- The method `DateTime::calculateSunTime(event, gp)`. -/
def calculateSunTime (L : CdtLib) (s : DateTime) (event : CDT_Event)
    (gp : GlobalPosition) : DateTime × Bool :=
  let r := L.CDT_RiseSet event s.m_jdate gp.longitude gp.latitude gp.gmtDiff
  let flag := r.1
  let hours := r.2
  let s1 := { s with m_jdate := s.m_jdate + hours / 24 }
  let s2 := { s1 with m_event := event }
  let s3 := (calculateCalendarDate L s2).1
  let v := isValid L s3
  if ¬ (v.2 = true) then (v.1, false)
  else ({ v.1 with m_flag := flag }, true)

/-! ## Construction and setters -/

/-- The constructor `DateTime(year, month, day, hour, minute, second, millisecond)`.
The member initialisers do not initialise `m_jdate`; `calculateJulianDate`
assigns it before it is read (the `0` below is never observed). -/
def construct (L : CdtLib) (year month day hour minute second millisecond : Int) :
    DateTime :=
  let s0 : DateTime := { m_jdate := 0, m_year := year, m_month := month, m_day := day,
                         m_hour := hour, m_minute := minute, m_second := second,
                         m_millisecond := millisecond, m_event := CDT_User,
                         m_flag := CDT_None }
  let s1 := (calculateJulianDate L s0).1
  (isValid L s1).1

/-- The method `DateTime::set(double julianDate)`. -/
def setJulian (L : CdtLib) (s : DateTime) (julianDate : ℚ) : DateTime × Bool :=
  calculateCalendarDate L { s with m_jdate := julianDate }

/-- The method `DateTime::set(year, month, day, hour, minute, second, millisecond)`. -/
def set (L : CdtLib) (s : DateTime) (year month day hour minute second millisecond : Int) :
    DateTime × Bool :=
  let s1 := { s with m_year := year, m_month := month, m_day := day, m_hour := hour,
                     m_minute := minute, m_second := second,
                     m_millisecond := millisecond }
  let s2 := { s1 with m_event := CDT_User }
  let s3 := (calculateJulianDate L s2).1
  isValid L s3

/-- The method `DateTime::setSystem`; `t` is the broken-down local time returned by
`localtime(&now)`. -/
def setSystem (L : CdtLib) (s : DateTime) (t : Tm) : DateTime × Bool :=
  let s1 := { s with m_year := t.tm_year + 1900, m_month := t.tm_mon + 1,
                     m_day := t.tm_mday, m_hour := t.tm_hour, m_minute := t.tm_min,
                     m_second := t.tm_sec, m_millisecond := 0 }
  let s2 := { s1 with m_event := CDT_System }
  let s3 := (calculateJulianDate L s2).1
  isValid L s3

/-- The method `DateTime::setTime(hour, minute, second, millisecond)`. -/
def setTime (L : CdtLib) (s : DateTime) (hour minute second millisecond : Int) :
    DateTime × Bool :=
  let s1 := if hour ≥ 0 then { s with m_hour := hour } else s
  let s2 := if minute ≥ 0 then { s1 with m_minute := minute } else s1
  let s3 := if second ≥ 0 then { s2 with m_second := second } else s2
  let s4 := if millisecond ≥ 0 then { s3 with m_millisecond := millisecond } else s3
  let s5 := { s4 with m_event := CDT_User }
  let s6 := (calculateJulianDate L s5).1
  isValid L s6

/-- The setter `DateTime::year(int newYear)`. -/
def year (L : CdtLib) (s : DateTime) (newYear : Int) : DateTime × Int :=
  let s1 := { s with m_year := newYear }
  let s2 := (calculateJulianDate L s1).1
  let s3 := (isValid L s2).1
  (s3, s3.m_year)

/-- The setter `DateTime::month(int newMonth)`. -/
def month (L : CdtLib) (s : DateTime) (newMonth : Int) : DateTime × Int :=
  let s1 := { s with m_month := newMonth }
  let s2 := (calculateJulianDate L s1).1
  let s3 := (isValid L s2).1
  (s3, s3.m_month)

/-- The setter `DateTime::day(int newDay)`. -/
def day (L : CdtLib) (s : DateTime) (newDay : Int) : DateTime × Int :=
  let s1 := { s with m_day := newDay }
  let s2 := (calculateJulianDate L s1).1
  let s3 := (isValid L s2).1
  (s3, s3.m_day)

/-- The setter `DateTime::hour(int newHour)`. -/
def hour (L : CdtLib) (s : DateTime) (newHour : Int) : DateTime × Int :=
  let s1 := { s with m_hour := newHour }
  let s2 := (calculateJulianDate L s1).1
  let s3 := (isValid L s2).1
  (s3, s3.m_hour)

/-- The setter `DateTime::minute(int newMinute)`. -/
def minute (L : CdtLib) (s : DateTime) (newMinute : Int) : DateTime × Int :=
  let s1 := { s with m_minute := newMinute }
  let s2 := (calculateJulianDate L s1).1
  let s3 := (isValid L s2).1
  (s3, s3.m_minute)

/-- The setter `DateTime::second(int newSecond)`. -/
def second (L : CdtLib) (s : DateTime) (newSecond : Int) : DateTime × Int :=
  let s1 := { s with m_second := newSecond }
  let s2 := (calculateJulianDate L s1).1
  let s3 := (isValid L s2).1
  (s3, s3.m_second)

/-- The setter `DateTime::millisecond(int newMillisecond)`. -/
def millisecond (L : CdtLib) (s : DateTime) (newMillisecond : Int) : DateTime × Int :=
  let s1 := { s with m_millisecond := newMillisecond }
  let s2 := (calculateJulianDate L s1).1
  let s3 := (isValid L s2).1
  (s3, s3.m_millisecond)

/-! ## Arithmetic -/

/-- The method `DateTime::addDays(double days)`. -/
def addDays (L : CdtLib) (s : DateTime) (days : ℚ) : DateTime × Bool :=
  let s1 := { s with m_jdate := s.m_jdate + days }
  let s2 := { s1 with m_event := CDT_User }
  let s3 := (calculateJulianDate L s2).1
  isValid L s3

/-- The method `DateTime::addHours(double hours)`. -/
def addHours (L : CdtLib) (s : DateTime) (hours : ℚ) : DateTime × Bool :=
  addDays L s (hours / 24)

/-- The method `DateTime::addMinutes(double minutes)`. -/
def addMinutes (L : CdtLib) (s : DateTime) (minutes : ℚ) : DateTime × Bool :=
  addDays L s (minutes / 1440)

/-- The method `DateTime::addSeconds(double minutes)` (the source names its
argument `minutes`). -/
def addSeconds (L : CdtLib) (s : DateTime) (minutes : ℚ) : DateTime × Bool :=
  addDays L s (minutes / 86400)

/-- The method `DateTime::addMilliseconds(int milliseconds)`. -/
def addMilliseconds (L : CdtLib) (s : DateTime) (milliseconds : Int) : DateTime × Bool :=
  addDays L s ((milliseconds : ℚ) / 86400000)

/-- The method `DateTime::daysSince(dt)`. -/
def daysSince (s dt : DateTime) : ℚ := s.m_jdate - dt.m_jdate

/-- The method `DateTime::daysUntil(dt)`. -/
def daysUntil (s dt : DateTime) : ℚ := dt.m_jdate - s.m_jdate

/-- The method `DateTime::hoursSince(dt)`. -/
def hoursSince (s dt : DateTime) : ℚ := 24 * (s.m_jdate - dt.m_jdate)

/-- The method `DateTime::hoursUntil(dt)`. -/
def hoursUntil (s dt : DateTime) : ℚ := 24 * (dt.m_jdate - s.m_jdate)

/-! ## Annual events -/

/-- The method `DateTime::easter()` for the stored year. -/
def easter (L : CdtLib) (s : DateTime) : DateTime × Bool :=
  let md := L.CDT_EasterDay s.m_year
  let s1 := { s with m_month := md.1, m_day := md.2 }
  let s2 := { s1 with m_hour := 12 }
  let s3 := { s2 with m_minute := 0, m_second := 0, m_millisecond := 0 }
  let s4 := (calculateJulianDate L s3).1
  let s5 := { s4 with m_event := CDT_Easter }
  isValid L s5

/-- The method `DateTime::easter(int year)`. -/
def easterYear (L : CdtLib) (s : DateTime) (year : Int) : DateTime × Bool :=
  easter L { s with m_year := year }

/-- The method `DateTime::springEquinox(gp)`. -/
def springEquinox (L : CdtLib) (s : DateTime) (gp : GlobalPosition) : DateTime × Bool :=
  let s1 := { s with m_event := CDT_Spring }
  let s2 := (calculateSolstice L s1 CDT_Spring gp).1
  isValid L s2

/-- The method `DateTime::springEquinox(year, gp)`. -/
def springEquinoxYear (L : CdtLib) (s : DateTime) (year : Int) (gp : GlobalPosition) :
    DateTime × Bool :=
  springEquinox L { s with m_year := year } gp

/-- The method `DateTime::summerSolstice(gp)`. -/
def summerSolstice (L : CdtLib) (s : DateTime) (gp : GlobalPosition) : DateTime × Bool :=
  let s1 := { s with m_event := CDT_Summer }
  let s2 := (calculateSolstice L s1 CDT_Summer gp).1
  isValid L s2

/-- The method `DateTime::summerSolstice(year, gp)`. -/
def summerSolsticeYear (L : CdtLib) (s : DateTime) (year : Int) (gp : GlobalPosition) :
    DateTime × Bool :=
  summerSolstice L { s with m_year := year } gp

/-- The method `DateTime::fallEquinox(gp)`. -/
def fallEquinox (L : CdtLib) (s : DateTime) (gp : GlobalPosition) : DateTime × Bool :=
  let s1 := { s with m_event := CDT_Fall }
  let s2 := (calculateSolstice L s1 CDT_Fall gp).1
  isValid L s2

/-- The method `DateTime::fallEquinox(year, gp)`. -/
def fallEquinoxYear (L : CdtLib) (s : DateTime) (year : Int) (gp : GlobalPosition) :
    DateTime × Bool :=
  fallEquinox L { s with m_year := year } gp

/-- The method `DateTime::winterSolstice(gp)`. -/
def winterSolstice (L : CdtLib) (s : DateTime) (gp : GlobalPosition) : DateTime × Bool :=
  let s1 := { s with m_event := CDT_Winter }
  let s2 := (calculateSolstice L s1 CDT_Winter gp).1
  isValid L s2

/-- The method `DateTime::winterSolstice(year, gp)`. -/
def winterSolsticeYear (L : CdtLib) (s : DateTime) (year : Int) (gp : GlobalPosition) :
    DateTime × Bool :=
  winterSolstice L { s with m_year := year } gp

/-- The method `DateTime::newMoon(period, gp)` for the stored year. -/
def newMoon (L : CdtLib) (s : DateTime) (period : Int) (gp : GlobalPosition) :
    DateTime × Bool :=
  let s1 := { s with m_jdate := L.CDT_NewMoonGMT s.m_year period + gp.gmtDiff / 24 }
  let s2 := (calculateCalendarDate L s1).1
  let s3 := { s2 with m_event := CDT_NewMoon }
  isValid L s3

/-- The method `DateTime::newMoon(year, period, gp)`. -/
def newMoonYear (L : CdtLib) (s : DateTime) (year period : Int) (gp : GlobalPosition) :
    DateTime × Bool :=
  newMoon L { s with m_year := year } period gp

/-- The method `DateTime::fullMoon(period, gp)`. -/
def fullMoon (L : CdtLib) (s : DateTime) (period : Int) (gp : GlobalPosition) :
    DateTime × Bool :=
  let l_year := s.m_year
  let s1 := (newMoon L s period gp).1
  let date0 := s1.m_jdate
  let s2 := (newMoonYear L s1 l_year (period + 1) gp).1
  let date1 := s2.m_jdate
  let s3 := { s2 with m_jdate := (1 / 2 : ℚ) * (date0 + date1) }
  let s4 := (calculateCalendarDate L s3).1
  let s5 := { s4 with m_event := CDT_FullMoon }
  isValid L s5

/-! ## Daily events -/

/-- The method `DateTime::sunRise(gp)`. -/
def sunRise (L : CdtLib) (s : DateTime) (gp : GlobalPosition) : DateTime × Bool :=
  calculateSunTime L s CDT_SunRise gp

/-- The method `DateTime::sunSet(gp)`. -/
def sunSet (L : CdtLib) (s : DateTime) (gp : GlobalPosition) : DateTime × Bool :=
  calculateSunTime L s CDT_SunSet gp

/-- The method `DateTime::moonRise(gp)`. -/
def moonRise (L : CdtLib) (s : DateTime) (gp : GlobalPosition) : DateTime × Bool :=
  calculateSunTime L s CDT_MoonRise gp

/-- The method `DateTime::moonSet(gp)`. -/
def moonSet (L : CdtLib) (s : DateTime) (gp : GlobalPosition) : DateTime × Bool :=
  calculateSunTime L s CDT_MoonSet gp

/-- The method `DateTime::civilDawn(gp)`. -/
def civilDawn (L : CdtLib) (s : DateTime) (gp : GlobalPosition) : DateTime × Bool :=
  calculateSunTime L s CDT_CivilDawn gp

/-- The method `DateTime::civilDusk(gp)`. -/
def civilDusk (L : CdtLib) (s : DateTime) (gp : GlobalPosition) : DateTime × Bool :=
  calculateSunTime L s CDT_CivilDusk gp

/-- The method `DateTime::nauticalDawn(gp)`. -/
def nauticalDawn (L : CdtLib) (s : DateTime) (gp : GlobalPosition) : DateTime × Bool :=
  calculateSunTime L s CDT_NauticalDawn gp

/-- The method `DateTime::nauticalDusk(gp)`. -/
def nauticalDusk (L : CdtLib) (s : DateTime) (gp : GlobalPosition) : DateTime × Bool :=
  calculateSunTime L s CDT_NauticalDusk gp

/-- The method `DateTime::astronomicalDawn(gp)`. -/
def astronomicalDawn (L : CdtLib) (s : DateTime) (gp : GlobalPosition) : DateTime × Bool :=
  calculateSunTime L s CDT_AstronomicalDawn gp

/-- The method `DateTime::astronomicalDusk(gp)`. -/
def astronomicalDusk (L : CdtLib) (s : DateTime) (gp : GlobalPosition) : DateTime × Bool :=
  calculateSunTime L s CDT_AstronomicalDusk gp

end DateTime

/-! ## The operations as data -/

/-- The value returned by a member function: nothing (a constructor), a `bool`,
or an `int`. -/
inductive Ret
  | none
  | bool (b : Bool)
  | int (n : Int)
  deriving DecidableEq

/-- The ten rise/set/twilight member functions. -/
inductive RiseSetOp
  | sunRise
  | sunSet
  | moonRise
  | moonSet
  | civilDawn
  | civilDusk
  | nauticalDawn
  | nauticalDusk
  | astronomicalDawn
  | astronomicalDusk
  deriving DecidableEq

/-- The event kind that each rise/set/twilight member function passes to
`calculateSunTime`. -/
def RiseSetOp.kind : RiseSetOp → CDT_Event
  | .sunRise => CDT_SunRise
  | .sunSet => CDT_SunSet
  | .moonRise => CDT_MoonRise
  | .moonSet => CDT_MoonSet
  | .civilDawn => CDT_CivilDawn
  | .civilDusk => CDT_CivilDusk
  | .nauticalDawn => CDT_NauticalDawn
  | .nauticalDusk => CDT_NauticalDusk
  | .astronomicalDawn => CDT_AstronomicalDawn
  | .astronomicalDusk => CDT_AstronomicalDusk

/-- Run a rise/set/twilight member function. -/
def RiseSetOp.run (L : CdtLib) (s : DateTime) (gp : GlobalPosition) :
    RiseSetOp → DateTime × Bool
  | .sunRise => DateTime.sunRise L s gp
  | .sunSet => DateTime.sunSet L s gp
  | .moonRise => DateTime.moonRise L s gp
  | .moonSet => DateTime.moonSet L s gp
  | .civilDawn => DateTime.civilDawn L s gp
  | .civilDusk => DateTime.civilDusk L s gp
  | .nauticalDawn => DateTime.nauticalDawn L s gp
  | .nauticalDusk => DateTime.nauticalDusk L s gp
  | .astronomicalDawn => DateTime.astronomicalDawn L s gp
  | .astronomicalDusk => DateTime.astronomicalDusk L s gp

/-- The four seasonal events. -/
inductive Season
  | spring
  | summer
  | fall
  | winter
  deriving DecidableEq

/-- The event kind of a season. -/
def Season.kind : Season → CDT_Event
  | .spring => CDT_Spring
  | .summer => CDT_Summer
  | .fall => CDT_Fall
  | .winter => CDT_Winter

/-- Run the one-argument seasonal member function (stored year). -/
def Season.run (L : CdtLib) (s : DateTime) (gp : GlobalPosition) : Season → DateTime × Bool
  | .spring => DateTime.springEquinox L s gp
  | .summer => DateTime.summerSolstice L s gp
  | .fall => DateTime.fallEquinox L s gp
  | .winter => DateTime.winterSolstice L s gp

/-- Run the two-argument seasonal member function (given year). -/
def Season.runYear (L : CdtLib) (s : DateTime) (year : Int) (gp : GlobalPosition) :
    Season → DateTime × Bool
  | .spring => DateTime.springEquinoxYear L s year gp
  | .summer => DateTime.summerSolsticeYear L s year gp
  | .fall => DateTime.fallEquinoxYear L s year gp
  | .winter => DateTime.winterSolsticeYear L s year gp

/-- The seven single-field setters. -/
inductive FieldSetter
  | year
  | month
  | day
  | hour
  | minute
  | second
  | millisecond
  deriving DecidableEq

/-- Run a single-field setter with the new value `n`. -/
def FieldSetter.run (L : CdtLib) (s : DateTime) (n : Int) : FieldSetter → DateTime × Int
  | .year => DateTime.year L s n
  | .month => DateTime.month L s n
  | .day => DateTime.day L s n
  | .hour => DateTime.hour L s n
  | .minute => DateTime.minute L s n
  | .second => DateTime.second L s n
  | .millisecond => DateTime.millisecond L s n

/-- The public mutating operations of `DateTime`, with their arguments. -/
inductive Mutator
  | construct (year month day hour minute second millisecond : Int)
  | set (year month day hour minute second millisecond : Int)
  | setJulian (julianDate : ℚ)
  | setSystem (t : Tm)
  | setTime (hour minute second millisecond : Int)
  | setField (f : FieldSetter) (n : Int)
  | addDays (days : ℚ)
  | addHours (hours : ℚ)
  | addMinutes (minutes : ℚ)
  | addSeconds (seconds : ℚ)
  | addMilliseconds (milliseconds : Int)
  | easter
  | easterYear (year : Int)
  | season (k : Season) (gp : GlobalPosition)
  | seasonYear (k : Season) (year : Int) (gp : GlobalPosition)
  | newMoon (period : Int) (gp : GlobalPosition)
  | newMoonYear (year period : Int) (gp : GlobalPosition)
  | fullMoon (period : Int) (gp : GlobalPosition)
  | riseSet (op : RiseSetOp) (gp : GlobalPosition)

/-- Repackage a `bool`-returning member function. -/
def Ret.ofBool (r : DateTime × Bool) : DateTime × Ret := (r.1, Ret.bool r.2)

/-- Repackage an `int`-returning member function. -/
def Ret.ofInt (r : DateTime × Int) : DateTime × Ret := (r.1, Ret.int r.2)

/-- Run a mutating operation on the state `s` (a constructor does not read `s`). -/
def Mutator.run (L : CdtLib) (s : DateTime) : Mutator → DateTime × Ret
  | .construct y mo d h mi sec ms => (DateTime.construct L y mo d h mi sec ms, Ret.none)
  | .set y mo d h mi sec ms => Ret.ofBool (DateTime.set L s y mo d h mi sec ms)
  | .setJulian jd => Ret.ofBool (DateTime.setJulian L s jd)
  | .setSystem t => Ret.ofBool (DateTime.setSystem L s t)
  | .setTime h mi sec ms => Ret.ofBool (DateTime.setTime L s h mi sec ms)
  | .setField f n => Ret.ofInt (f.run L s n)
  | .addDays d => Ret.ofBool (DateTime.addDays L s d)
  | .addHours h => Ret.ofBool (DateTime.addHours L s h)
  | .addMinutes m => Ret.ofBool (DateTime.addMinutes L s m)
  | .addSeconds x => Ret.ofBool (DateTime.addSeconds L s x)
  | .addMilliseconds n => Ret.ofBool (DateTime.addMilliseconds L s n)
  | .easter => Ret.ofBool (DateTime.easter L s)
  | .easterYear y => Ret.ofBool (DateTime.easterYear L s y)
  | .season k gp => Ret.ofBool (k.run L s gp)
  | .seasonYear k y gp => Ret.ofBool (k.runYear L s y gp)
  | .newMoon p gp => Ret.ofBool (DateTime.newMoon L s p gp)
  | .newMoonYear y p gp => Ret.ofBool (DateTime.newMoonYear L s y p gp)
  | .fullMoon p gp => Ret.ofBool (DateTime.fullMoon L s p gp)
  | .riseSet op gp => Ret.ofBool (op.run L s gp)

/-- Whether the operation is one of the ten rise/set/twilight solver calls. -/
def Mutator.isRiseSet : Mutator → Bool
  | .riseSet _ _ => true
  | _ => false

/-- The stored Julian date and the stored calendar fields agree: one of the two
is the library conversion of the other. -/
def DateTime.Consistent (L : CdtLib) (s : DateTime) : Prop :=
  s.m_jdate = L.CDT_JulianDate s.m_year s.m_month s.m_day s.m_hour s.m_minute
      s.m_second s.m_millisecond
    ∨ s.fields = L.CDT_CalendarDate s.m_jdate

instance DateTime.decidableConsistent (L : CdtLib) (s : DateTime) :
    Decidable (s.Consistent L) :=
  inferInstanceAs (Decidable (_ ∨ _))

/-- The validator of the library applied to a record of calendar fields. -/
def CdtLib.validate (L : CdtLib) (c : CalendarFields) : CDT_Flag :=
  L.CDT_ValidDateTime c.year c.month c.day c.hour c.minute c.second c.millisecond

/-! ## A calendar library written from the specification

`cdtlib.c` is not among the sources.  The definitions of this section follow
the specification (sections 3, 4.1, 4.2 and 8) and the parameter descriptions
in `datetime.cpp`; they serve for concrete instances of the general theorems.
-/

/-- Modelled from the spec: `CDT_DecimalDay` of the absent `cdtlib.c`, the elapsed
part of the day since midnight in decimal days. -/
def CDT_DecimalDay (hour minute second millisecond : Int) : ℚ :=
  ((hour * 3600000 + minute * 60000 + second * 1000 + millisecond : Int) : ℚ) / 86400000

/-- Modelled from the spec: `CDT_JulianDate` of the absent `cdtlib.c`, "unconditional
arithmetic conversion (no validation) ... using the standard reform-aware
day-count formula": the Julian calendar up to 1582-10-04 and the Gregorian
calendar from 1582-10-15, with 2000-01-01T12:00:00 at 2451545.0. -/
def CDT_JulianDate (year month day hour minute second millisecond : Int) : ℚ :=
  let y := if month ≤ 2 then year - 1 else year
  let m := if month ≤ 2 then month + 12 else month
  let b : Int :=
    if year > 1582 ∨ (year = 1582 ∧ (month > 10 ∨ (month = 10 ∧ day ≥ 15)))
    then 2 - y / 100 + (y / 100) / 4 else 0
  (((1461 * (y + 4716)) / 4 + (306001 * (m + 1)) / 10000 + day + b : Int) : ℚ)
    - 3049 / 2 + CDT_DecimalDay hour minute second millisecond

/-- Modelled from the spec: `CDT_CalendarDate` of the absent `cdtlib.c`, the inverse
of `CDT_JulianDate` ("toFields: exact inverse"), with the time of day resolved
to whole milliseconds. -/
def CDT_CalendarDate (jd : ℚ) : CalendarFields :=
  let z : Int := ⌊jd + 1 / 2⌋
  let f : ℚ := jd + 1 / 2 - z
  let a : Int := if z < 2299161 then z
    else z + 1 + (4 * z - 7468865) / 146097 - ((4 * z - 7468865) / 146097) / 4
  let b := a + 1524
  let c := (20 * b - 2442) / 7305
  let d := (1461 * c) / 4
  let e := (10000 * (b - d)) / 306001
  let day := b - d - (306001 * e) / 10000
  let month := if e < 14 then e - 1 else e - 13
  let year := if month > 2 then c - 4716 else c - 4715
  let ms : Int := ⌊f * 86400000⌋
  ⟨year, month, day, ms / 3600000, (ms % 3600000) / 60000, (ms % 60000) / 1000, ms % 1000⟩

/-- Modelled from the spec: `CDT_LeapYear` of the absent `cdtlib.c`, "Julian rule
(divisible by 4) for years ≤ 1582; Gregorian rule (divisible by 4, not by 100
unless also by 400) for years ≥ 1583"; the number of leap days, 0 or 1. -/
def CDT_LeapYear (year : Int) : Int :=
  if year ≤ 1582 then (if year % 4 = 0 then 1 else 0)
  else if (year % 4 = 0 ∧ year % 100 ≠ 0) ∨ year % 400 = 0 then 1 else 0

/-- Modelled from the spec: the nominal length of a month (28 to 31 days) used by
the date validator of the absent `cdtlib.c`; the ten days dropped from October
1582 are rejected by the validator itself. -/
def monthLength (year month : Int) : Int :=
  if month = 2 then 28 + CDT_LeapYear year
  else if month = 4 ∨ month = 6 ∨ month = 9 ∨ month = 11 then 30
  else 31

/-- Modelled from the spec: `CDT_ValidDate` of the absent `cdtlib.c`, "checks year
plausibility, month in 1–12, day in 1–daysInMonth, explicitly rejecting the
non-existent days Oct 5–14, 1582 as invalid-day"; a plausible year is -4712 or
later (the parameter descriptions of `datetime.cpp`). -/
def CDT_ValidDate (year month day : Int) : CDT_Flag :=
  if year < -4712 then CDT_HasInvalidYear
  else if month < 1 ∨ month > 12 then CDT_HasInvalidMonth
  else if day < 1 ∨ day > monthLength year month then CDT_HasInvalidDay
  else if year = 1582 ∧ month = 10 ∧ 5 ≤ day ∧ day ≤ 14 then CDT_HasInvalidDay
  else CDT_HasValidDate

/-- Modelled from the spec: `CDT_ValidTime` of the absent `cdtlib.c`, "checks hour
0–23, minute/second 0–59, millisecond 0–999". -/
def CDT_ValidTime (hour minute second millisecond : Int) : CDT_Flag :=
  if hour < 0 ∨ hour > 23 then CDT_HasInvalidHour
  else if minute < 0 ∨ minute > 59 then CDT_HasInvalidMinute
  else if second < 0 ∨ second > 59 then CDT_HasInvalidSecond
  else if millisecond < 0 ∨ millisecond > 999 then CDT_HasInvalidMillisecond
  else CDT_HasValidTime

/-- Modelled from the spec: `CDT_ValidDateTime` of the absent `cdtlib.c`, "runs date
checks then time checks in that order; returns the first failing field's code,
or valid if all pass". -/
def CDT_ValidDateTime (year month day hour minute second millisecond : Int) : CDT_Flag :=
  if CDT_ValidDate year month day ≠ CDT_HasValidDate then CDT_ValidDate year month day
  else if CDT_ValidTime hour minute second millisecond ≠ CDT_HasValidTime
  then CDT_ValidTime hour minute second millisecond
  else CDT_HasValidDateTime

/-- The library whose calendar functions are the ones written from the
specification above and whose astronomical functions are the given ones. -/
def cdtlib (riseSet : CDT_Event → ℚ → ℚ → ℚ → ℚ → CDT_Flag × ℚ)
    (solsticeGMT : CDT_Event → Int → ℚ) (newMoonGMT : Int → Int → ℚ)
    (easterDay : Int → Int × Int) : CdtLib :=
  { CDT_JulianDate := CDT_JulianDate
    CDT_CalendarDate := CDT_CalendarDate
    CDT_ValidDateTime := CDT_ValidDateTime
    CDT_RiseSet := riseSet
    CDT_SolsticeGMT := solsticeGMT
    CDT_NewMoonGMT := newMoonGMT
    CDT_EasterDay := easterDay }

/-- A stand-in for the astronomical functions of `cdtlib.c` in concrete
instances: every rise/set event occurs at 06:00 local time, every seasonal
event and new moon falls on 2451545.0, and Easter is March 31.  The general
theorems do not use it; they hold for every library. -/
def sampleLib : CdtLib :=
  cdtlib (fun _ _ _ _ _ => (CDT_Rises, 6)) (fun _ _ => 2451545) (fun _ _ => 2451545)
    (fun _ => (3, 31))

/-- A position on the Greenwich meridian at the equator, without names. -/
def sampleGp : GlobalPosition :=
  { m_locationName := "", m_zoneName := "", m_lat := 0, m_lon := 0, m_gmt := 0 }

/-- The DateTime constructed as 2024-01-01T00:00:00 with the sample library. -/
def sampleA : DateTime := DateTime.construct sampleLib 2024 1 1 0 0 0 0

/-- The DateTime constructed as 2024-01-02T00:00:00 with the sample library. -/
def sampleB : DateTime := DateTime.construct sampleLib 2024 1 2 0 0 0 0

/-- The sample DateTime set from the Julian date -1000.0 (a date before the year
-4712). -/
def sampleEarly : DateTime := (DateTime.setJulian sampleLib sampleA (-1000)).1

/-- The DateTime constructed as 2024-06-21T12:00:00 with the sample library. -/
def sampleNoon : DateTime := DateTime.construct sampleLib 2024 6 21 12 0 0 0

/-! ## Copies, omitted arguments and single fields -/

/-- The copy constructor `DateTime(DateTime &dt)`: every data member is
initialised from the member of `dt`. -/
def DateTime.copy (dt : DateTime) : DateTime :=
  { m_jdate := dt.m_jdate, m_year := dt.m_year, m_month := dt.m_month, m_day := dt.m_day,
    m_hour := dt.m_hour, m_minute := dt.m_minute, m_second := dt.m_second,
    m_millisecond := dt.m_millisecond, m_event := dt.m_event, m_flag := dt.m_flag }

/-- The assignment `DateTime::operator=(dt)` on the object `s`: every data member
is assigned from the member of `dt`. -/
def DateTime.assign (s dt : DateTime) : DateTime :=
  let s1 := { s with m_jdate := dt.m_jdate }
  let s2 := { s1 with m_year := dt.m_year }
  let s3 := { s2 with m_month := dt.m_month }
  let s4 := { s3 with m_day := dt.m_day }
  let s5 := { s4 with m_hour := dt.m_hour }
  let s6 := { s5 with m_minute := dt.m_minute }
  let s7 := { s6 with m_second := dt.m_second }
  let s8 := { s7 with m_millisecond := dt.m_millisecond }
  let s9 := { s8 with m_event := dt.m_event }
  { s9 with m_flag := dt.m_flag }

/-- Two DateTime objects held side by side: an original and a copy of it.  The
class has value members only (a `double` and nine `int`s), so the objects are
two separate records. -/
structure TwoObjects where
  original : DateTime
  copied : DateTime

/-- Declare `DateTime copied(original)`. -/
def TwoObjects.ofCopy (dt : DateTime) : TwoObjects :=
  { original := dt, copied := DateTime.copy dt }

/-- Execute `copied = original` on two existing objects. -/
def TwoObjects.ofAssign (s dt : DateTime) : TwoObjects :=
  { original := dt, copied := DateTime.assign s dt }

/-- Run a list of mutators, in order, on one object. -/
def Mutator.runAll (L : CdtLib) (s : DateTime) : List Mutator → DateTime
  | [] => s
  | op :: ops => Mutator.runAll L (op.run L s).1 ops

/-- Run a list of mutators on the copy. -/
def TwoObjects.mutateCopied (L : CdtLib) (t : TwoObjects) (ops : List Mutator) : TwoObjects :=
  { t with copied := Mutator.runAll L t.copied ops }

/-- Run a list of mutators on the original. -/
def TwoObjects.mutateOriginal (L : CdtLib) (t : TwoObjects) (ops : List Mutator) :
    TwoObjects :=
  { t with original := Mutator.runAll L t.original ops }

/-- A call `set(year, ...)` that passes `rest`, the arguments after `year` that
are written out (none to six of them); the omitted ones take the defaults of
the declaration in datetime.h: `month=1, day=1, hour=0, minute=0, second=0,
millisecond=0`. -/
def DateTime.setArgs (L : CdtLib) (s : DateTime) (year : Int) (rest : List Int) :
    DateTime × Bool :=
  DateTime.set L s year (rest.getD 0 1) (rest.getD 1 1) (rest.getD 2 0) (rest.getD 3 0)
    (rest.getD 4 0) (rest.getD 5 0)

/-- A construction `DateTime(year, ...)` that passes `rest`, the arguments after
`year` that are written out; the omitted ones take the defaults of the
declaration in datetime.h. -/
def DateTime.constructArgs (L : CdtLib) (year : Int) (rest : List Int) : DateTime :=
  DateTime.construct L year (rest.getD 0 1) (rest.getD 1 1) (rest.getD 2 0) (rest.getD 3 0)
    (rest.getD 4 0) (rest.getD 5 0)

/-- The calendar field that a single-field setter writes. -/
def FieldSetter.get (c : CalendarFields) : FieldSetter → Int
  | .year => c.year
  | .month => c.month
  | .day => c.day
  | .hour => c.hour
  | .minute => c.minute
  | .second => c.second
  | .millisecond => c.millisecond

/-! ## Easter and sample new moons -/

/-- Modelled from the spec: `CDT_EasterDay` of the absent `cdtlib.c`, the "standard
Gregorian Easter algorithm" (the computus in the form given by Meeus and by
Duffett-Smith); returns the month and the day. -/
def CDT_EasterDay (year : Int) : Int × Int :=
  let a := year % 19
  let b := year / 100
  let c := year % 100
  let d := b / 4
  let e := b % 4
  let f := (b + 8) / 25
  let g := (b - f + 1) / 3
  let h := (19 * a + b - d - g + 15) % 30
  let i := c / 4
  let k := c % 4
  let l := (32 + 2 * e + 2 * i - h - k) % 7
  let m := (a + 11 * h + 22 * l) / 451
  ((h + l - 7 * m + 114) / 31, (h + l - 7 * m + 114) % 31 + 1)

/-- The sample library with the Easter algorithm written from the specification. -/
def sampleEasterLib : CdtLib :=
  cdtlib (fun _ _ _ _ _ => (CDT_Rises, 6)) (fun _ _ => 2451545) (fun _ _ => 2451545)
    CDT_EasterDay

/-- A stand-in for `CDT_NewMoonGMT` in concrete instances: new moon number `p` of
`year` falls 29.5 `p` days after December 22 of the year before. -/
def sampleNewMoonGMT (year period : Int) : ℚ :=
  CDT_JulianDate year 1 1 0 0 0 0 - 10 + (period : ℚ) * (59 / 2)

/-- The sample library with the stand-in new moons. -/
def sampleMoonLib : CdtLib :=
  cdtlib (fun _ _ _ _ _ => (CDT_Rises, 6)) (fun _ _ => 2451545) sampleNewMoonGMT
    (fun _ => (3, 31))

/-! ## GlobalPosition: copy, assignment and the degree helpers -/

/-- The copy constructor `GlobalPosition(GlobalPosition &gp)`: the five data
members are initialised from the members of `gp`. -/
def GlobalPosition.copy (gp : GlobalPosition) : GlobalPosition :=
  { m_locationName := gp.m_locationName, m_zoneName := gp.m_zoneName, m_lat := gp.m_lat,
    m_lon := gp.m_lon, m_gmt := gp.m_gmt }

/-- The assignment `GlobalPosition::operator=(gp)` on the object `s`: it assigns
`m_lon`, `m_lat` and `m_gmt`, and nothing else. -/
def GlobalPosition.assign (s gp : GlobalPosition) : GlobalPosition :=
  let s1 := { s with m_lon := gp.m_lon }
  let s2 := { s1 with m_lat := gp.m_lat }
  { s2 with m_gmt := gp.m_gmt }

/-- The C++ conversion `(int) x` of a `double`: truncation toward zero (values
outside the range of `int` are outside the model). -/
def truncToInt (x : ℚ) : Int := if 0 ≤ x then ⌊x⌋ else ⌈x⌉

/-- The power of two `2^k` for an integer exponent. -/
def pow2 (k : Int) : ℚ :=
  if 0 ≤ k then ((2 ^ k.toNat : Nat) : ℚ) else 1 / ((2 ^ (-k).toNat : Nat) : ℚ)

/-- The number of halvings that bring `n` below 2, at most `fuel` of them:
`floor(log2 n)` for `1 ≤ n` when `fuel` is at least that. -/
def log2Fuel : Nat → Nat → Nat
  | 0, _ => 0
  | fuel + 1, n => if n < 2 then 0 else log2Fuel fuel (n / 2) + 1

/-- The binary exponent `floor(log2 x)` of a positive rational `x`: the difference
of the exponents of numerator and denominator, or one less. -/
def floorLog2 (x : ℚ) : Int :=
  let k : Int := (log2Fuel x.num.natAbs x.num.natAbs : Int) - (log2Fuel x.den x.den : Int)
  if pow2 k ≤ x then k else k - 1

/-- Rounding to the nearest integer, a tie going to the even one. -/
def roundHalfEven (t : ℚ) : Int :=
  let f : Int := ⌊t⌋
  if t - (f : ℚ) < 1 / 2 then f
  else if 1 / 2 < t - (f : ℚ) then f + 1
  else if f % 2 = 0 then f else f + 1

/-- The `double` that an arithmetic operation returns for the exact result `x`:
IEEE 754 binary64 (53 significant bits), round to nearest, ties to even.
Overflow and subnormal results are outside the model. -/
def roundDouble (x : ℚ) : ℚ :=
  if x = 0 then 0
  else (roundHalfEven (x / pow2 (floorLog2 |x| - 52)) : ℚ) * pow2 (floorLog2 |x| - 52)

/-- The function `DmsToDeg(degrees, minutes, seconds)` of globalPosition.cpp:
`(double) degrees + (double) minutes/60. + (double) seconds/3600.`, each
division and each addition returning a `double` (the conversions of the `int`
arguments are exact). -/
def DmsToDeg (degrees minutes seconds : Int) : ℚ :=
  roundDouble (roundDouble ((degrees : ℚ) + roundDouble ((minutes : ℚ) / 60))
    + roundDouble ((seconds : ℚ) / 3600))

/-- The function `DegToDms(decimal, &degrees, &minutes, &seconds)` of
globalPosition.cpp; returns the three values it writes. -/
def DegToDms (decimal : ℚ) : Int × Int × Int :=
  let decimal1 := |decimal|
  let degrees := truncToInt decimal1
  let decimal2 := 60 * (decimal1 - (degrees : ℚ))
  let minutes := truncToInt decimal2
  let decimal3 := 60 * (decimal2 - (minutes : ℚ))
  let seconds := truncToInt (decimal3 + 1 / 2)
  (degrees, minutes, seconds)

/-- The function `DegToDms` with every subtraction, product and sum rounded to a
`double` as the machine does; `DegToDms` above is the same computation in
exact arithmetic. -/
def DegToDmsDouble (decimal : ℚ) : Int × Int × Int :=
  let decimal1 := |decimal|
  let degrees := truncToInt decimal1
  let decimal2 := roundDouble (60 * roundDouble (decimal1 - (degrees : ℚ)))
  let minutes := truncToInt decimal2
  let decimal3 := roundDouble (60 * roundDouble (decimal2 - (minutes : ℚ)))
  let seconds := truncToInt (roundDouble (decimal3 + 1 / 2))
  (degrees, minutes, seconds)

/-- The method `DateTime::isLeapYear()`; `leapYear` is `CDT_LeapYear` of the library. -/
def DateTime.isLeapYear (leapYear : Int → Int) (s : DateTime) : Int := leapYear s.m_year

/-! ## Field validity in the words of the specification -/

/-- A plausible year: -4712 or later. -/
def yearOk (year : Int) : Bool := decide (-4712 ≤ year)

/-- A month of 1 to 12. -/
def monthOk (month : Int) : Bool := decide (1 ≤ month ∧ month ≤ 12)

/-- A day of 1 to the length of the month that is not one of the days
October 5 to 14, 1582, which do not exist. -/
def dayOk (year month day : Int) : Bool :=
  decide (1 ≤ day ∧ day ≤ monthLength year month
    ∧ ¬ (year = 1582 ∧ month = 10 ∧ 5 ≤ day ∧ day ≤ 14))

/-- An hour of 0 to 23. -/
def hourOk (hour : Int) : Bool := decide (0 ≤ hour ∧ hour ≤ 23)

/-- A minute of 0 to 59. -/
def minuteOk (minute : Int) : Bool := decide (0 ≤ minute ∧ minute ≤ 59)

/-- A second of 0 to 59. -/
def secondOk (second : Int) : Bool := decide (0 ≤ second ∧ second ≤ 59)

/-- A millisecond of 0 to 999. -/
def millisecondOk (millisecond : Int) : Bool := decide (0 ≤ millisecond ∧ millisecond ≤ 999)

/-- The result flag in the words of the specification: the code of the first
invalid field in the order year, month, day, hour, minute, second,
millisecond, or the valid code when all seven pass. -/
def firstInvalidField (c : CalendarFields) : CDT_Flag :=
  if yearOk c.year = false then CDT_HasInvalidYear
  else if monthOk c.month = false then CDT_HasInvalidMonth
  else if dayOk c.year c.month c.day = false then CDT_HasInvalidDay
  else if hourOk c.hour = false then CDT_HasInvalidHour
  else if minuteOk c.minute = false then CDT_HasInvalidMinute
  else if secondOk c.second = false then CDT_HasInvalidSecond
  else if millisecondOk c.millisecond = false then CDT_HasInvalidMillisecond
  else CDT_HasValidDateTime

/-! ## The whole-day part of the two conversions -/

/-- The whole-day count inside `CDT_JulianDate`: the Julian date of the fields is
`dayCount year month day - 1524.5` plus the decimal day. -/
def dayCount (year month day : Int) : Int :=
  let y := if month ≤ 2 then year - 1 else year
  let m := if month ≤ 2 then month + 12 else month
  let b : Int :=
    if year > 1582 ∨ (year = 1582 ∧ (month > 10 ∨ (month = 10 ∧ day ≥ 15)))
    then 2 - y / 100 + (y / 100) / 4 else 0
  (1461 * (y + 4716)) / 4 + (306001 * (m + 1)) / 10000 + day + b

/-- The year, month and day that `CDT_CalendarDate` computes from the whole-day
number `z = floor(jd + 1/2)`. -/
def dateOfDayCount (z : Int) : Int × Int × Int :=
  let a : Int := if z < 2299161 then z
    else z + 1 + (4 * z - 7468865) / 146097 - ((4 * z - 7468865) / 146097) / 4
  let b := a + 1524
  let c := (20 * b - 2442) / 7305
  let d := (1461 * c) / 4
  let e := (10000 * (b - d)) / 306001
  let day := b - d - (306001 * e) / 10000
  let month := if e < 14 then e - 1 else e - 13
  let year := if month > 2 then c - 4716 else c - 4715
  (year, month, day)

/-! ## More sample objects -/

/-- The sample library with a solver that reports polar day (no event, `hours`
left at 0). -/
def samplePolarLib : CdtLib :=
  cdtlib (fun _ _ _ _ _ => (CDT_Light, 0)) (fun _ _ => 2451545) (fun _ _ => 2451545)
    (fun _ => (3, 31))

/-- The sample DateTime set from the Julian date 2451545 + 1/172800000, half a
millisecond after 2000-01-01T12:00:00. -/
def sampleHalfMs : DateTime :=
  (DateTime.setJulian sampleLib sampleA (2451545 + 1 / 172800000)).1

/-! ## Helper lemmas: the effect of the private helpers -/

theorem isValid_flag (L : CdtLib) (s : DateTime) :
    (DateTime.isValid L s).1.m_flag = L.CDT_ValidDateTime s.m_year s.m_month
      s.m_day s.m_hour s.m_minute s.m_second s.m_millisecond := rfl

theorem isValid_snd (L : CdtLib) (s : DateTime) :
    (DateTime.isValid L s).2 = true ↔
      L.CDT_ValidDateTime s.m_year s.m_month s.m_day s.m_hour s.m_minute s.m_second
        s.m_millisecond = CDT_HasValidDateTime := by
  simp [DateTime.isValid]

theorem addDays_jdate (L : CdtLib) (s : DateTime) (d : ℚ) :
    (DateTime.addDays L s d).1.m_jdate =
      L.CDT_JulianDate s.m_year s.m_month s.m_day s.m_hour s.m_minute s.m_second
        s.m_millisecond := rfl

theorem addDays_fields (L : CdtLib) (s : DateTime) (d : ℚ) :
    (DateTime.addDays L s d).1.fields = s.fields := rfl

theorem construct_jdate (L : CdtLib) (y mo d h mi sec ms : Int) :
    (DateTime.construct L y mo d h mi sec ms).m_jdate = L.CDT_JulianDate y mo d h mi sec ms :=
  rfl

theorem construct_fields (L : CdtLib) (y mo d h mi sec ms : Int) :
    (DateTime.construct L y mo d h mi sec ms).fields = ⟨y, mo, d, h, mi, sec, ms⟩ := rfl

/-! ## Arithmetic (C1 to C4) -/

/-- C1, evaluated on the code: `addDays(d)` adds `d` to `m_jdate` and then calls
`calculateJulianDate`, which overwrites `m_jdate` with the Julian date of the
stored (unchanged) calendar fields.  So for every library the Julian date after
`addDays` does not depend on `d`, and on a DateTime constructed as
2024-02-28T23:00:00 the Julian date after `addDays(1.0)` is the Julian date
before the call, not that date plus one. -/
theorem addDays_jdate_not_shifted (L : CdtLib) :
    (∀ (s : DateTime) (d : ℚ), (DateTime.addDays L s d).1.m_jdate =
        L.CDT_JulianDate s.m_year s.m_month s.m_day s.m_hour s.m_minute s.m_second
          s.m_millisecond)
    ∧ (DateTime.addDays L (DateTime.construct L 2024 2 28 23 0 0 0) 1).1.m_jdate
        = (DateTime.construct L 2024 2 28 23 0 0 0).m_jdate
    ∧ (DateTime.addDays L (DateTime.construct L 2024 2 28 23 0 0 0) 1).1.m_jdate
        ≠ (DateTime.construct L 2024 2 28 23 0 0 0).m_jdate + 1 := by
  refine ⟨fun s d => addDays_jdate L s d, rfl, ?_⟩
  rw [addDays_jdate, construct_jdate]
  show L.CDT_JulianDate 2024 2 28 23 0 0 0 ≠ L.CDT_JulianDate 2024 2 28 23 0 0 0 + 1
  intro h
  linarith

theorem calendarDate_feb29 :
    CDT_CalendarDate (CDT_JulianDate 2024 2 28 23 0 0 0 + 1) = ⟨2024, 2, 29, 23, 0, 0, 0⟩ := by
  decide!

/-- C2, evaluated on the code: `addDays` never recomputes the calendar fields; for
every library they are the fields held before the call.  With the calendar
library written from the specification, adding 1.0 day to a DateTime
constructed as 2024-02-28T23:00:00 leaves the fields at 2024-02-28T23:00:00,
while `toFields` of the shifted Julian date is 2024-02-29T23:00:00. -/
theorem addDays_fields_not_recomputed (riseSet : CDT_Event → ℚ → ℚ → ℚ → ℚ → CDT_Flag × ℚ)
    (solsticeGMT : CDT_Event → Int → ℚ) (newMoonGMT : Int → Int → ℚ)
    (easterDay : Int → Int × Int) :
    (∀ (L : CdtLib) (s : DateTime) (d : ℚ), (DateTime.addDays L s d).1.fields = s.fields)
    ∧ (DateTime.addDays (cdtlib riseSet solsticeGMT newMoonGMT easterDay)
        (DateTime.construct (cdtlib riseSet solsticeGMT newMoonGMT easterDay)
          2024 2 28 23 0 0 0) 1).1.fields = ⟨2024, 2, 28, 23, 0, 0, 0⟩
    ∧ (cdtlib riseSet solsticeGMT newMoonGMT easterDay).CDT_CalendarDate
        ((DateTime.construct (cdtlib riseSet solsticeGMT newMoonGMT easterDay)
          2024 2 28 23 0 0 0).m_jdate + 1) = ⟨2024, 2, 29, 23, 0, 0, 0⟩ := by
  refine ⟨fun L s d => addDays_fields L s d, rfl, ?_⟩
  exact calendarDate_feb29

/-- C3: for every library, state and signed amount, `addHours(h)`,
`addMinutes(m)`, `addSeconds(x)` and `addMilliseconds(n)` give the same state
and the same returned value as `addDays(h/24)`, `addDays(m/1440)`,
`addDays(x/86400)` and `addDays(n/86400000)`. -/
theorem add_units_eq_addDays (L : CdtLib) (s : DateTime) (h m x : ℚ) (n : Int) :
    DateTime.addHours L s h = DateTime.addDays L s (h / 24)
    ∧ DateTime.addMinutes L s m = DateTime.addDays L s (m / 1440)
    ∧ DateTime.addSeconds L s x = DateTime.addDays L s (x / 86400)
    ∧ DateTime.addMilliseconds L s n = DateTime.addDays L s ((n : ℚ) / 86400000) :=
  ⟨rfl, rfl, rfl, rfl⟩

/-- C4: `daysSince` is `a.jd - b.jd`, `daysUntil` is `b.jd - a.jd`, so
`a.daysUntil(b) = -a.daysSince(b) = b.daysSince(a)`; the hours variants are 24
times the days variants; and when `b` is exactly one day later than `a`,
`a.daysUntil(b) = 1`, `a.daysSince(b) = -1` and `b.daysSince(a) = 1`.  The four
operations are functions of the two states that return a number only: they
have no state to change. -/
theorem days_hours_since_until (a b : DateTime) :
    DateTime.daysSince a b = a.m_jdate - b.m_jdate
    ∧ DateTime.daysUntil a b = b.m_jdate - a.m_jdate
    ∧ DateTime.daysUntil a b = - DateTime.daysSince a b
    ∧ DateTime.daysUntil a b = DateTime.daysSince b a
    ∧ DateTime.hoursSince a b = 24 * DateTime.daysSince a b
    ∧ DateTime.hoursUntil a b = 24 * DateTime.daysUntil a b
    ∧ (b.m_jdate = a.m_jdate + 1 →
        DateTime.daysUntil a b = 1 ∧ DateTime.daysSince a b = -1
          ∧ DateTime.daysSince b a = 1) := by
  refine ⟨rfl, rfl, ?_, rfl, rfl, rfl, ?_⟩
  · simp [DateTime.daysUntil, DateTime.daysSince]
  · intro h
    simp [DateTime.daysUntil, DateTime.daysSince, h]

theorem sampleB_one_day_after_sampleA : sampleB.m_jdate = sampleA.m_jdate + 1 := by
  decide!

/-- C4 at A = 2024-01-01 and B = 2024-01-02 (Julian dates from the calendar
library written from the specification): B is one day after A, and
`A.daysUntil(B) = 1`, `A.daysSince(B) = -1`, `B.daysSince(A) = 1`. -/
theorem days_hours_since_until_witness :
    sampleB.m_jdate = sampleA.m_jdate + 1
    ∧ DateTime.daysUntil sampleA sampleB = 1 ∧ DateTime.daysSince sampleA sampleB = -1
    ∧ DateTime.daysSince sampleB sampleA = 1 :=
  ⟨sampleB_one_day_after_sampleA,
    (days_hours_since_until sampleA sampleB).2.2.2.2.2.2 sampleB_one_day_after_sampleA⟩

/-! ## Helper lemmas: validation and the rise/set helper -/

theorem isValid_spec (L : CdtLib) (s : DateTime) :
    ((DateTime.isValid L s).2 = true ↔ (DateTime.isValid L s).1.m_flag = CDT_HasValidDateTime)
    ∧ (DateTime.isValid L s).1.m_flag =
        L.CDT_ValidDateTime (DateTime.isValid L s).1.m_year (DateTime.isValid L s).1.m_month
          (DateTime.isValid L s).1.m_day (DateTime.isValid L s).1.m_hour
          (DateTime.isValid L s).1.m_minute (DateTime.isValid L s).1.m_second
          (DateTime.isValid L s).1.m_millisecond := by
  refine ⟨?_, rfl⟩
  rw [isValid_snd]
  rfl

theorem isValid_consistent (L : CdtLib) (s : DateTime) (h : s.Consistent L) :
    (DateTime.isValid L s).1.Consistent L := h

theorem calculateCalendarDate_consistent (L : CdtLib) (s : DateTime) :
    (DateTime.calculateCalendarDate L s).1.Consistent L := Or.inr rfl

theorem calculateSunTime_jdate (L : CdtLib) (s : DateTime) (event : CDT_Event)
    (gp : GlobalPosition) :
    (DateTime.calculateSunTime L s event gp).1.m_jdate =
      s.m_jdate + (L.CDT_RiseSet event s.m_jdate gp.longitude gp.latitude gp.gmtDiff).2 / 24 := by
  unfold DateTime.calculateSunTime
  dsimp only
  split <;> rfl

theorem calculateSunTime_fields (L : CdtLib) (s : DateTime) (event : CDT_Event)
    (gp : GlobalPosition) :
    (DateTime.calculateSunTime L s event gp).1.fields =
      L.CDT_CalendarDate (s.m_jdate
        + (L.CDT_RiseSet event s.m_jdate gp.longitude gp.latitude gp.gmtDiff).2 / 24) := by
  unfold DateTime.calculateSunTime
  dsimp only
  split <;> rfl

theorem calculateSunTime_event (L : CdtLib) (s : DateTime) (event : CDT_Event)
    (gp : GlobalPosition) :
    (DateTime.calculateSunTime L s event gp).1.m_event = event := by
  unfold DateTime.calculateSunTime
  dsimp only
  split <;> rfl

theorem calculateSunTime_consistent (L : CdtLib) (s : DateTime) (event : CDT_Event)
    (gp : GlobalPosition) :
    (DateTime.calculateSunTime L s event gp).1.Consistent L := by
  right
  rw [calculateSunTime_fields, calculateSunTime_jdate]

theorem riseSetOp_run_eq (L : CdtLib) (s : DateTime) (gp : GlobalPosition) (op : RiseSetOp) :
    op.run L s gp = DateTime.calculateSunTime L s op.kind gp := by
  cases op <;> rfl

/-! ## Consistency of the two representations (C5) -/

/-- C5: for every library and every prior state, after each mutator returns
(construction from fields, `set(fields)`, `set(julianDate)`, `setSystem`,
`setTime`, the seven single-field setters, the five `add...` operations, both
forms of `easter`, the four seasonal operations in both forms, both forms of
`newMoon`, `fullMoon` and the ten rise/set/twilight operations) either the
stored Julian date is `CDT_JulianDate` of the stored fields or the stored
fields are `CDT_CalendarDate` of the stored Julian date. -/
theorem mutator_consistent (L : CdtLib) (s : DateTime) (op : Mutator) :
    (op.run L s).1.Consistent L := by
  cases op with
  | construct y mo d h mi sec ms => exact Or.inl rfl
  | set y mo d h mi sec ms => exact Or.inl rfl
  | setJulian jd => exact Or.inr rfl
  | setSystem t => exact Or.inl rfl
  | setTime h mi sec ms => exact Or.inl rfl
  | setField f n => cases f <;> exact Or.inl rfl
  | addDays d => exact Or.inl rfl
  | addHours h => exact Or.inl rfl
  | addMinutes m => exact Or.inl rfl
  | addSeconds x => exact Or.inl rfl
  | addMilliseconds n => exact Or.inl rfl
  | easter => exact Or.inl rfl
  | easterYear y => exact Or.inl rfl
  | season k gp => cases k <;> exact Or.inr rfl
  | seasonYear k y gp => cases k <;> exact Or.inr rfl
  | newMoon p gp => exact Or.inr rfl
  | newMoonYear y p gp => exact Or.inr rfl
  | fullMoon p gp => exact Or.inr rfl
  | riseSet op gp =>
    show (op.run L s gp).1.Consistent L
    rw [riseSetOp_run_eq]
    exact calculateSunTime_consistent L s op.kind gp

/-! ## The event tag (C6) -/

/-- C6, evaluated on the code: the seven single-field setters and
`set(julianDate)` do not write `m_event`.  For every library, state and
position, after `sunRise` followed by `day(n)`, by any other single-field
setter, or by `set(julianDate)`, `event()` still reports the sunrise tag and
not the user-set tag. -/
theorem event_stale_after_setter (L : CdtLib) (s : DateTime) (gp : GlobalPosition) :
    (∀ n, (DateTime.day L (DateTime.sunRise L s gp).1 n).1.m_event = CDT_SunRise)
    ∧ (∀ (f : FieldSetter) n, (f.run L (DateTime.sunRise L s gp).1 n).1.m_event = CDT_SunRise)
    ∧ (∀ jd, (DateTime.setJulian L (DateTime.sunRise L s gp).1 jd).1.m_event = CDT_SunRise)
    ∧ CDT_SunRise ≠ CDT_User := by
  have h : (DateTime.sunRise L s gp).1.m_event = CDT_SunRise :=
    calculateSunTime_event L s CDT_SunRise gp
  refine ⟨fun n => h, ?_, fun jd => h, by decide⟩
  intro f n
  cases f <;> exact h

/-- The event tags the mutators do write: for every library and prior state, the event tag after
`set(fields)`, `setTime` and the five `add...` operations is user-set, after
`setSystem` it is system-clock-set, after `easter`, a seasonal operation,
`newMoon`, `fullMoon` and a rise/set/twilight operation it is that operation's
own tag, and each single-field setter leaves the event tag as it was. -/
theorem event_after_mutator (L : CdtLib) (s : DateTime) :
    (∀ y mo d h mi sec ms, (DateTime.set L s y mo d h mi sec ms).1.m_event = CDT_User)
    ∧ (∀ h mi sec ms, (DateTime.setTime L s h mi sec ms).1.m_event = CDT_User)
    ∧ (∀ d, (DateTime.addDays L s d).1.m_event = CDT_User)
    ∧ (∀ h, (DateTime.addHours L s h).1.m_event = CDT_User)
    ∧ (∀ m, (DateTime.addMinutes L s m).1.m_event = CDT_User)
    ∧ (∀ x, (DateTime.addSeconds L s x).1.m_event = CDT_User)
    ∧ (∀ n, (DateTime.addMilliseconds L s n).1.m_event = CDT_User)
    ∧ (∀ t, (DateTime.setSystem L s t).1.m_event = CDT_System)
    ∧ (DateTime.easter L s).1.m_event = CDT_Easter
    ∧ (∀ y, (DateTime.easterYear L s y).1.m_event = CDT_Easter)
    ∧ (∀ (k : Season) gp, (k.run L s gp).1.m_event = k.kind)
    ∧ (∀ (k : Season) y gp, (k.runYear L s y gp).1.m_event = k.kind)
    ∧ (∀ p gp, (DateTime.newMoon L s p gp).1.m_event = CDT_NewMoon)
    ∧ (∀ y p gp, (DateTime.newMoonYear L s y p gp).1.m_event = CDT_NewMoon)
    ∧ (∀ p gp, (DateTime.fullMoon L s p gp).1.m_event = CDT_FullMoon)
    ∧ (∀ (op : RiseSetOp) gp, (op.run L s gp).1.m_event = op.kind)
    ∧ (∀ (f : FieldSetter) n, (f.run L s n).1.m_event = s.m_event) := by
  refine ⟨fun _ _ _ _ _ _ _ => rfl, fun _ _ _ _ => rfl, fun _ => rfl, fun _ => rfl,
    fun _ => rfl, fun _ => rfl, fun _ => rfl, fun _ => rfl, rfl, fun _ => rfl, ?_, ?_,
    fun _ _ => rfl, fun _ _ _ => rfl, fun _ _ => rfl, ?_, ?_⟩
  · intro k gp
    cases k <;> rfl
  · intro k y gp
    cases k <;> rfl
  · intro op gp
    rw [riseSetOp_run_eq]
    exact calculateSunTime_event L s op.kind gp
  · intro f n
    cases f <;> rfl

/-! ## The returned boolean and the flag (C7) -/

/-- C7: for every library, prior state and mutator that returns a boolean and is
not one of the ten rise/set/twilight operations (`set(fields)`,
`set(julianDate)`, `setSystem`, `setTime`, the five `add...` operations,
`easter`, the seasonal operations, `newMoon`, `fullMoon`), the returned value
is true exactly when the flag stored on return is `CDT_HasValidDateTime`, and
that flag is `CDT_ValidDateTime` of the calendar fields stored on return. -/
theorem bool_mutator_returns_validity (L : CdtLib) (s : DateTime) (op : Mutator) (b : Bool)
    (hop : op.isRiseSet = false) (hret : (op.run L s).2 = Ret.bool b) :
    (b = true ↔ (op.run L s).1.m_flag = CDT_HasValidDateTime)
    ∧ (op.run L s).1.m_flag =
        L.CDT_ValidDateTime (op.run L s).1.m_year (op.run L s).1.m_month (op.run L s).1.m_day
          (op.run L s).1.m_hour (op.run L s).1.m_minute (op.run L s).1.m_second
          (op.run L s).1.m_millisecond := by
  cases op with
  | construct y mo d h mi sec ms => exact absurd hret (by simp [Mutator.run])
  | setField f n => exact absurd hret (by simp [Mutator.run, Ret.ofInt])
  | riseSet op gp => exact absurd hop (by simp [Mutator.isRiseSet])
  | season k gp =>
    cases k <;>
    · have hb : b = (DateTime.isValid L _).2 := (Ret.bool.inj hret).symm
      rw [hb]
      exact isValid_spec L _
  | seasonYear k y gp =>
    cases k <;>
    · have hb : b = (DateTime.isValid L _).2 := (Ret.bool.inj hret).symm
      rw [hb]
      exact isValid_spec L _
  | _ =>
    have hb : b = (DateTime.isValid L _).2 := (Ret.bool.inj hret).symm
    rw [hb]
    exact isValid_spec L _

/-- C7 at a concrete input: `addDays(1.0)` on the sample DateTime 2024-01-01
returns true, and the stored flag is the valid code and the validator's
result on the stored fields. -/
theorem bool_mutator_returns_validity_witness :
    (Mutator.addDays 1).isRiseSet = false
    ∧ ((Mutator.addDays 1).run sampleLib sampleA).2 = Ret.bool true
    ∧ (true = true ↔ ((Mutator.addDays 1).run sampleLib sampleA).1.m_flag
        = CDT_HasValidDateTime)
    ∧ ((Mutator.addDays 1).run sampleLib sampleA).1.m_flag = CDT_HasValidDateTime :=
  have h := bool_mutator_returns_validity sampleLib sampleA (Mutator.addDays 1) true rfl
    (by decide!)
  ⟨rfl, by decide!, h.1, h.1.mp rfl⟩

/-! ## Rise, set and twilight (C8, C9) -/

/-- C8 fails as stated: on a DateTime holding the Julian date -1000.0, `sunRise`
leaves the validator's invalid-year code in the flag, while the solver
reported that the event occurs. -/
theorem riseSet_flag_counterexample :
    (DateTime.sunRise sampleLib sampleEarly sampleGp).1.m_flag = CDT_HasInvalidYear
    ∧ (sampleLib.CDT_RiseSet CDT_SunRise sampleEarly.m_jdate sampleGp.longitude
        sampleGp.latitude sampleGp.gmtDiff).1 = CDT_Rises
    ∧ (DateTime.sunRise sampleLib sampleEarly sampleGp).1.m_flag
        ≠ (sampleLib.CDT_RiseSet CDT_SunRise sampleEarly.m_jdate sampleGp.longitude
            sampleGp.latitude sampleGp.gmtDiff).1 := by
  decide!

theorem calculateSunTime_flag (L : CdtLib) (s : DateTime) (event : CDT_Event)
    (gp : GlobalPosition) :
    (DateTime.calculateSunTime L s event gp).1.m_flag =
      if L.validate (L.CDT_CalendarDate (s.m_jdate
            + (L.CDT_RiseSet event s.m_jdate gp.longitude gp.latitude gp.gmtDiff).2 / 24))
          = CDT_HasValidDateTime
      then (L.CDT_RiseSet event s.m_jdate gp.longitude gp.latitude gp.gmtDiff).1
      else L.validate (L.CDT_CalendarDate (s.m_jdate
            + (L.CDT_RiseSet event s.m_jdate gp.longitude gp.latitude gp.gmtDiff).2 / 24)) := by
  simp only [DateTime.calculateSunTime, DateTime.calculateCalendarDate, DateTime.isValid,
    CdtLib.validate]
  split_ifs <;> simp_all

theorem calculateSunTime_ret (L : CdtLib) (s : DateTime) (event : CDT_Event)
    (gp : GlobalPosition) :
    (DateTime.calculateSunTime L s event gp).2 = true ↔
      L.validate (L.CDT_CalendarDate (s.m_jdate
            + (L.CDT_RiseSet event s.m_jdate gp.longitude gp.latitude gp.gmtDiff).2 / 24))
          = CDT_HasValidDateTime := by
  simp only [DateTime.calculateSunTime, DateTime.calculateCalendarDate, DateTime.isValid,
    CdtLib.validate]
  split_ifs <;> simp_all

/-- C8 as amended: for every library, state, position and each of the ten
rise/set/twilight operations, with `r` the result of `CDT_RiseSet` (called with
the operation's event kind, the stored Julian date and the position's
longitude, latitude and UTC offset) and `c` the calendar fields of the shifted
Julian date `m_jdate + r.2 / 24`: the stored fields are `c`; when `c`
validates, the stored flag is the solver's outcome `r.1`; otherwise the stored
flag is the validator's code for `c`; and the operation returns true exactly
when `c` validates. -/
theorem riseSet_flag (L : CdtLib) (s : DateTime) (gp : GlobalPosition) (op : RiseSetOp) :
    (op.run L s gp).1.fields = L.CDT_CalendarDate (s.m_jdate
        + (L.CDT_RiseSet op.kind s.m_jdate gp.longitude gp.latitude gp.gmtDiff).2 / 24)
    ∧ (op.run L s gp).1.m_flag =
      (if L.validate (L.CDT_CalendarDate (s.m_jdate
            + (L.CDT_RiseSet op.kind s.m_jdate gp.longitude gp.latitude gp.gmtDiff).2 / 24))
          = CDT_HasValidDateTime
       then (L.CDT_RiseSet op.kind s.m_jdate gp.longitude gp.latitude gp.gmtDiff).1
       else L.validate (L.CDT_CalendarDate (s.m_jdate
            + (L.CDT_RiseSet op.kind s.m_jdate gp.longitude gp.latitude gp.gmtDiff).2 / 24)))
    ∧ ((op.run L s gp).2 = true ↔
        L.validate (L.CDT_CalendarDate (s.m_jdate
            + (L.CDT_RiseSet op.kind s.m_jdate gp.longitude gp.latitude gp.gmtDiff).2 / 24))
          = CDT_HasValidDateTime) := by
  rw [riseSetOp_run_eq]
  exact ⟨calculateSunTime_fields L s op.kind gp, calculateSunTime_flag L s op.kind gp,
    calculateSunTime_ret L s op.kind gp⟩

theorem julianDate_noon_vs_midnight :
    CDT_JulianDate 2024 6 21 12 0 0 0 = CDT_JulianDate 2024 6 21 0 0 0 0 + 1 / 2 := by
  decide!

theorem sampleNoon_sunSet_fields :
    (DateTime.sunSet sampleLib sampleNoon sampleGp).1.fields = ⟨2024, 6, 21, 18, 0, 0, 0⟩ := by
  decide!

/-- C9, evaluated on the code: `calculateSunTime` adds `hours / 24` to the stored
Julian date, time of day included, not to the Julian date of the day's
midnight.  For every library the resulting Julian date is `m_jdate + hours / 24`.
With the calendar library written from the specification and any solver, on a
DateTime constructed as 2024-06-21T12:00:00 the result of `sunSet` is half a
day later than the midnight of that day plus `hours / 24`; and with a solver
that reports the event at 06:00 the time fields on return are 18:00:00. -/
theorem riseSet_adds_to_time_of_day
    (riseSet : CDT_Event → ℚ → ℚ → ℚ → ℚ → CDT_Flag × ℚ)
    (solsticeGMT : CDT_Event → Int → ℚ) (newMoonGMT : Int → Int → ℚ)
    (easterDay : Int → Int × Int) (gp : GlobalPosition) :
    (∀ (L : CdtLib) (s : DateTime) (op : RiseSetOp), (op.run L s gp).1.m_jdate =
        s.m_jdate + (L.CDT_RiseSet op.kind s.m_jdate gp.longitude gp.latitude gp.gmtDiff).2 / 24)
    ∧ (DateTime.sunSet (cdtlib riseSet solsticeGMT newMoonGMT easterDay)
        (DateTime.construct (cdtlib riseSet solsticeGMT newMoonGMT easterDay)
          2024 6 21 12 0 0 0) gp).1.m_jdate
      = CDT_JulianDate 2024 6 21 0 0 0 0
        + (riseSet CDT_SunSet (CDT_JulianDate 2024 6 21 12 0 0 0) gp.longitude gp.latitude
            gp.gmtDiff).2 / 24
        + 1 / 2
    ∧ (DateTime.sunSet sampleLib sampleNoon sampleGp).1.fields = ⟨2024, 6, 21, 18, 0, 0, 0⟩
    ∧ (sampleLib.CDT_RiseSet CDT_SunSet sampleNoon.m_jdate sampleGp.longitude
        sampleGp.latitude sampleGp.gmtDiff).2 = 6 := by
  refine ⟨?_, ?_, sampleNoon_sunSet_fields, rfl⟩
  · intro L s op
    rw [riseSetOp_run_eq]
    exact calculateSunTime_jdate L s op.kind gp
  · show (DateTime.calculateSunTime _ _ CDT_SunSet gp).1.m_jdate = _
    rw [calculateSunTime_jdate, construct_jdate]
    show CDT_JulianDate 2024 6 21 12 0 0 0
      + (riseSet CDT_SunSet (CDT_JulianDate 2024 6 21 12 0 0 0) gp.longitude gp.latitude
          gp.gmtDiff).2 / 24 = _
    have h := julianDate_noon_vs_midnight
    linarith

/-! ## Seasonal events (C10) -/

/-- C10: for every library, prior state, year, position and season kind, after the
two-argument seasonal operation the stored Julian date is
`CDT_SolsticeGMT(kind, year) + gp.gmtDiff()/24` and the calendar fields are
`CDT_CalendarDate` of that Julian date; the one-argument form does the same
with the year stored before the call. -/
theorem seasonal_jdate_and_fields (L : CdtLib) (s : DateTime) (k : Season) (year : Int)
    (gp : GlobalPosition) :
    (k.runYear L s year gp).1.m_jdate = L.CDT_SolsticeGMT k.kind year + gp.gmtDiff / 24
    ∧ (k.runYear L s year gp).1.fields
        = L.CDT_CalendarDate (L.CDT_SolsticeGMT k.kind year + gp.gmtDiff / 24)
    ∧ (k.run L s gp).1.m_jdate = L.CDT_SolsticeGMT k.kind s.m_year + gp.gmtDiff / 24
    ∧ (k.run L s gp).1.fields
        = L.CDT_CalendarDate (L.CDT_SolsticeGMT k.kind s.m_year + gp.gmtDiff / 24) := by
  cases k <;> exact ⟨rfl, rfl, rfl, rfl⟩

/-! ## Event tags of the event operations (C11) -/

/-- C11: for every library, prior state and arguments, whatever is returned,
after each event operation `event()` is the tag of that operation: the
operation's own kind after each of the ten rise/set/twilight operations, the
season's tag after a seasonal operation (both forms), new-moon after `newMoon`
(both forms), full-moon after `fullMoon`, and Easter after `easter` (both
forms). -/
theorem event_operation_tag (L : CdtLib) (s : DateTime) (gp : GlobalPosition) :
    (DateTime.sunRise L s gp).1.m_event = CDT_SunRise
    ∧ (DateTime.sunSet L s gp).1.m_event = CDT_SunSet
    ∧ (DateTime.moonRise L s gp).1.m_event = CDT_MoonRise
    ∧ (DateTime.moonSet L s gp).1.m_event = CDT_MoonSet
    ∧ (DateTime.civilDawn L s gp).1.m_event = CDT_CivilDawn
    ∧ (DateTime.civilDusk L s gp).1.m_event = CDT_CivilDusk
    ∧ (DateTime.nauticalDawn L s gp).1.m_event = CDT_NauticalDawn
    ∧ (DateTime.nauticalDusk L s gp).1.m_event = CDT_NauticalDusk
    ∧ (DateTime.astronomicalDawn L s gp).1.m_event = CDT_AstronomicalDawn
    ∧ (DateTime.astronomicalDusk L s gp).1.m_event = CDT_AstronomicalDusk
    ∧ (DateTime.springEquinox L s gp).1.m_event = CDT_Spring
    ∧ (DateTime.summerSolstice L s gp).1.m_event = CDT_Summer
    ∧ (DateTime.fallEquinox L s gp).1.m_event = CDT_Fall
    ∧ (DateTime.winterSolstice L s gp).1.m_event = CDT_Winter
    ∧ (∀ y, (DateTime.springEquinoxYear L s y gp).1.m_event = CDT_Spring)
    ∧ (∀ y, (DateTime.summerSolsticeYear L s y gp).1.m_event = CDT_Summer)
    ∧ (∀ y, (DateTime.fallEquinoxYear L s y gp).1.m_event = CDT_Fall)
    ∧ (∀ y, (DateTime.winterSolsticeYear L s y gp).1.m_event = CDT_Winter)
    ∧ (∀ p, (DateTime.newMoon L s p gp).1.m_event = CDT_NewMoon)
    ∧ (∀ y p, (DateTime.newMoonYear L s y p gp).1.m_event = CDT_NewMoon)
    ∧ (∀ p, (DateTime.fullMoon L s p gp).1.m_event = CDT_FullMoon)
    ∧ (DateTime.easter L s).1.m_event = CDT_Easter
    ∧ (∀ y, (DateTime.easterYear L s y).1.m_event = CDT_Easter) :=
  ⟨calculateSunTime_event L s _ gp, calculateSunTime_event L s _ gp,
    calculateSunTime_event L s _ gp, calculateSunTime_event L s _ gp,
    calculateSunTime_event L s _ gp, calculateSunTime_event L s _ gp,
    calculateSunTime_event L s _ gp, calculateSunTime_event L s _ gp,
    calculateSunTime_event L s _ gp, calculateSunTime_event L s _ gp,
    rfl, rfl, rfl, rfl, fun _ => rfl, fun _ => rfl, fun _ => rfl, fun _ => rfl,
    fun _ => rfl, fun _ _ => rfl, fun _ => rfl, rfl, fun _ => rfl⟩

/-! ## Lunar phases (C12, C13) -/

/-- C12: for every library, prior state, year, lunation index and position, after
`newMoon(year, p, gp)` the stored Julian date is
`CDT_NewMoonGMT(year, p) + gp.gmtDiff()/24` and the calendar fields are
`CDT_CalendarDate` of that Julian date; `newMoon(p, gp)` does the same with
the year stored before the call. -/
theorem newMoon_jdate_and_fields (L : CdtLib) (s : DateTime) (year p : Int)
    (gp : GlobalPosition) :
    (DateTime.newMoonYear L s year p gp).1.m_jdate
        = L.CDT_NewMoonGMT year p + gp.gmtDiff / 24
    ∧ (DateTime.newMoonYear L s year p gp).1.fields
        = L.CDT_CalendarDate (L.CDT_NewMoonGMT year p + gp.gmtDiff / 24)
    ∧ (DateTime.newMoon L s p gp).1.m_jdate
        = L.CDT_NewMoonGMT s.m_year p + gp.gmtDiff / 24
    ∧ (DateTime.newMoon L s p gp).1.fields
        = L.CDT_CalendarDate (L.CDT_NewMoonGMT s.m_year p + gp.gmtDiff / 24) :=
  ⟨rfl, rfl, rfl, rfl⟩

theorem fullMoon_jdate (L : CdtLib) (s : DateTime) (p : Int) (gp : GlobalPosition) :
    (DateTime.fullMoon L s p gp).1.m_jdate
      = (1 / 2 : ℚ) * ((L.CDT_NewMoonGMT s.m_year p + gp.gmtDiff / 24)
          + (L.CDT_NewMoonGMT s.m_year (p + 1) + gp.gmtDiff / 24)) := rfl

/-- C13: for every library, stored year `y`, lunation index `p` and position,
after `fullMoon(p, gp)` the stored Julian date is the midpoint
`0.5 * (N(y,p) + N(y,p+1))` of the localized new moons
`N(y,k) = CDT_NewMoonGMT(y, k) + gp.gmtDiff()/24`, both taken with the year
`y` stored before the call (whatever year the first new-moon computation
leaves in the fields); the calendar fields are `CDT_CalendarDate` of that
midpoint; and when `N(y,p) ≤ N(y,p+1)` the midpoint lies between the two. -/
theorem fullMoon_midpoint (L : CdtLib) (s : DateTime) (p : Int) (gp : GlobalPosition) :
    (DateTime.fullMoon L s p gp).1.m_jdate
      = (1 / 2 : ℚ) * ((L.CDT_NewMoonGMT s.m_year p + gp.gmtDiff / 24)
          + (L.CDT_NewMoonGMT s.m_year (p + 1) + gp.gmtDiff / 24))
    ∧ (DateTime.fullMoon L s p gp).1.fields
      = L.CDT_CalendarDate ((1 / 2 : ℚ) * ((L.CDT_NewMoonGMT s.m_year p + gp.gmtDiff / 24)
          + (L.CDT_NewMoonGMT s.m_year (p + 1) + gp.gmtDiff / 24)))
    ∧ (L.CDT_NewMoonGMT s.m_year p + gp.gmtDiff / 24
          ≤ L.CDT_NewMoonGMT s.m_year (p + 1) + gp.gmtDiff / 24 →
        L.CDT_NewMoonGMT s.m_year p + gp.gmtDiff / 24 ≤ (DateTime.fullMoon L s p gp).1.m_jdate
        ∧ (DateTime.fullMoon L s p gp).1.m_jdate
            ≤ L.CDT_NewMoonGMT s.m_year (p + 1) + gp.gmtDiff / 24) := by
  refine ⟨rfl, rfl, ?_⟩
  intro h
  rw [fullMoon_jdate]
  constructor <;> linarith

theorem sampleMoon_order :
    sampleMoonLib.CDT_NewMoonGMT sampleA.m_year 0 + sampleGp.gmtDiff / 24
      ≤ sampleMoonLib.CDT_NewMoonGMT sampleA.m_year (0 + 1) + sampleGp.gmtDiff / 24 := by
  decide!

theorem sampleMoon_first_year :
    (DateTime.newMoon sampleMoonLib sampleA 0 sampleGp).1.m_year = 2023
    ∧ sampleA.m_year = 2024 := by
  decide!

/-- C13 at a concrete input: on the sample DateTime of year 2024 with the stand-in
new moons, `fullMoon(0, gp)`: the first new-moon computation leaves the year
2023 in the fields, the two new moons are in order, and the stored Julian
date lies between the new moons 0 and 1 of the year 2024. -/
theorem fullMoon_midpoint_witness :
    (DateTime.newMoon sampleMoonLib sampleA 0 sampleGp).1.m_year = 2023
    ∧ sampleA.m_year = 2024
    ∧ sampleMoonLib.CDT_NewMoonGMT sampleA.m_year 0 + sampleGp.gmtDiff / 24
        ≤ sampleMoonLib.CDT_NewMoonGMT sampleA.m_year (0 + 1) + sampleGp.gmtDiff / 24
    ∧ sampleMoonLib.CDT_NewMoonGMT sampleA.m_year 0 + sampleGp.gmtDiff / 24
        ≤ (DateTime.fullMoon sampleMoonLib sampleA 0 sampleGp).1.m_jdate
    ∧ (DateTime.fullMoon sampleMoonLib sampleA 0 sampleGp).1.m_jdate
        ≤ sampleMoonLib.CDT_NewMoonGMT sampleA.m_year (0 + 1) + sampleGp.gmtDiff / 24 :=
  ⟨sampleMoon_first_year.1, sampleMoon_first_year.2, sampleMoon_order,
    (fullMoon_midpoint sampleMoonLib sampleA 0 sampleGp).2.2 sampleMoon_order⟩

/-! ## Easter (C14, C15, C16) -/

/-- C14: for every library, prior state and year, after `easter(year)` the stored
year is `year`, the month and day are the ones `CDT_EasterDay` returns for
that year, the time of day is 12:00:00.000, and the Julian date is
`CDT_JulianDate` of those fields; `easter()` does the same with the stored
year. -/
theorem easter_fields_and_jdate (L : CdtLib) (s : DateTime) (year : Int) :
    (DateTime.easterYear L s year).1.fields
        = ⟨year, (L.CDT_EasterDay year).1, (L.CDT_EasterDay year).2, 12, 0, 0, 0⟩
    ∧ (DateTime.easterYear L s year).1.m_jdate
        = L.CDT_JulianDate year (L.CDT_EasterDay year).1 (L.CDT_EasterDay year).2 12 0 0 0
    ∧ (DateTime.easter L s).1.fields
        = ⟨s.m_year, (L.CDT_EasterDay s.m_year).1, (L.CDT_EasterDay s.m_year).2, 12, 0, 0, 0⟩
    ∧ (DateTime.easter L s).1.m_jdate
        = L.CDT_JulianDate s.m_year (L.CDT_EasterDay s.m_year).1 (L.CDT_EasterDay s.m_year).2
            12 0 0 0 :=
  ⟨rfl, rfl, rfl, rfl⟩

theorem easterYear_ret (L : CdtLib) (s : DateTime) (year : Int) :
    (DateTime.easterYear L s year).2 = true ↔
      L.validate ⟨year, (L.CDT_EasterDay year).1, (L.CDT_EasterDay year).2, 12, 0, 0, 0⟩
        = CDT_HasValidDateTime :=
  isValid_snd L _

/-- C15 fails as stated: with the Easter algorithm and the validator written from
the specification, `easter(1500)` returns true with the valid flag and the
computed date April 1 at noon. -/
theorem easter_before_1583_counterexample :
    (DateTime.easterYear sampleEasterLib sampleA 1500).2 = true
    ∧ (DateTime.easterYear sampleEasterLib sampleA 1500).1.m_flag = CDT_HasValidDateTime
    ∧ (DateTime.easterYear sampleEasterLib sampleA 1500).1.fields = ⟨1500, 4, 1, 12, 0, 0, 0⟩ := by
  decide!

/-- C15 as amended: `easter(year)` makes no check of the year.  For every library,
prior state and year (below 1583 or not) it stores the month and day that
`CDT_EasterDay` returns with the time 12:00:00.000, the stored flag is the
validator's result on those fields, and it returns true exactly when they
validate. -/
theorem easter_no_year_check (L : CdtLib) (s : DateTime) (year : Int) :
    (DateTime.easterYear L s year).1.fields
        = ⟨year, (L.CDT_EasterDay year).1, (L.CDT_EasterDay year).2, 12, 0, 0, 0⟩
    ∧ (DateTime.easterYear L s year).1.m_flag
        = L.validate ⟨year, (L.CDT_EasterDay year).1, (L.CDT_EasterDay year).2, 12, 0, 0, 0⟩
    ∧ ((DateTime.easterYear L s year).2 = true ↔
        L.validate ⟨year, (L.CDT_EasterDay year).1, (L.CDT_EasterDay year).2, 12, 0, 0, 0⟩
          = CDT_HasValidDateTime) :=
  ⟨rfl, rfl, easterYear_ret L s year⟩

theorem easterDay_2024 : CDT_EasterDay 2024 = (3, 31) := by decide

theorem easterDay_2025 : CDT_EasterDay 2025 = (4, 20) := by decide

theorem easter_2024_valid : CDT_ValidDateTime 2024 3 31 12 0 0 0 = CDT_HasValidDateTime := by
  decide

theorem easter_2025_valid : CDT_ValidDateTime 2025 4 20 12 0 0 0 = CDT_HasValidDateTime := by
  decide

theorem easterDay_month (year : Int) :
    (CDT_EasterDay year).1 = 3 ∨ (CDT_EasterDay year).1 = 4 := by
  unfold CDT_EasterDay
  simp only []
  omega

/-- C16: with the Easter algorithm and the validator written from the
specification, for every astronomical part of the library and every prior
state, `easter(2024)` leaves month 3 and day 31 and returns true,
`easter(2025)` leaves month 4 and day 20 and returns true, and for every year
from 1583 on the month left by `easter(year)` is 3 or 4. -/
theorem easter_fixtures (riseSet : CDT_Event → ℚ → ℚ → ℚ → ℚ → CDT_Flag × ℚ)
    (solsticeGMT : CDT_Event → Int → ℚ) (newMoonGMT : Int → Int → ℚ)
    (s : DateTime) (year : Int) (hyear : 1583 ≤ year) :
    ((DateTime.easterYear (cdtlib riseSet solsticeGMT newMoonGMT CDT_EasterDay) s 2024).1.m_month = 3
      ∧ (DateTime.easterYear (cdtlib riseSet solsticeGMT newMoonGMT CDT_EasterDay) s 2024).1.m_day = 31
      ∧ (DateTime.easterYear (cdtlib riseSet solsticeGMT newMoonGMT CDT_EasterDay) s 2024).2 = true)
    ∧ ((DateTime.easterYear (cdtlib riseSet solsticeGMT newMoonGMT CDT_EasterDay) s 2025).1.m_month = 4
      ∧ (DateTime.easterYear (cdtlib riseSet solsticeGMT newMoonGMT CDT_EasterDay) s 2025).1.m_day = 20
      ∧ (DateTime.easterYear (cdtlib riseSet solsticeGMT newMoonGMT CDT_EasterDay) s 2025).2 = true)
    ∧ ((DateTime.easterYear (cdtlib riseSet solsticeGMT newMoonGMT CDT_EasterDay) s year).1.m_month = 3
      ∨ (DateTime.easterYear (cdtlib riseSet solsticeGMT newMoonGMT CDT_EasterDay) s year).1.m_month = 4) := by
  have _ := hyear
  refine ⟨⟨?_, ?_, ?_⟩, ⟨?_, ?_, ?_⟩, ?_⟩
  · show (CDT_EasterDay 2024).1 = 3
    rw [easterDay_2024]
  · show (CDT_EasterDay 2024).2 = 31
    rw [easterDay_2024]
  · rw [easterYear_ret]
    show CDT_ValidDateTime 2024 (CDT_EasterDay 2024).1 (CDT_EasterDay 2024).2 12 0 0 0 = _
    rw [easterDay_2024]
    exact easter_2024_valid
  · show (CDT_EasterDay 2025).1 = 4
    rw [easterDay_2025]
  · show (CDT_EasterDay 2025).2 = 20
    rw [easterDay_2025]
  · rw [easterYear_ret]
    show CDT_ValidDateTime 2025 (CDT_EasterDay 2025).1 (CDT_EasterDay 2025).2 12 0 0 0 = _
    rw [easterDay_2025]
    exact easter_2025_valid
  · exact easterDay_month year

/-- C16 at a concrete input: the year 2024 is not before 1583, and on the sample
DateTime `easter(2024)` leaves month 3, which is 3 or 4. -/
theorem easter_fixtures_witness :
    (1583 : Int) ≤ 2024
    ∧ ((DateTime.easterYear sampleEasterLib sampleA 2024).1.m_month = 3
      ∨ (DateTime.easterYear sampleEasterLib sampleA 2024).1.m_month = 4) :=
  ⟨by decide, (easter_fixtures (fun _ _ _ _ _ => (CDT_Rises, 6)) (fun _ _ => 2451545)
    (fun _ _ => 2451545) sampleA 2024 (by decide)).2.2⟩

/-! ## Copies (C17) -/

theorem copy_eq (dt : DateTime) : DateTime.copy dt = dt := rfl

theorem assign_eq (s dt : DateTime) : DateTime.assign s dt = dt := rfl

/-- C17: the copy constructor and the assignment give an object that agrees with
the original on the Julian date, the seven calendar fields, the event tag and
the result flag (it is equal to it, member by member); and the two objects
are independent: whatever list of mutators is then run on the copy, the
original keeps every one of its values, and whatever is run on the original,
the copy keeps the values it was given. -/
theorem copy_is_independent_snapshot (L : CdtLib) (s dt : DateTime) (ops : List Mutator) :
    (DateTime.copy dt = dt ∧ DateTime.assign s dt = dt)
    ∧ ((DateTime.copy dt).m_jdate = dt.m_jdate ∧ (DateTime.copy dt).fields = dt.fields
        ∧ (DateTime.copy dt).m_event = dt.m_event ∧ (DateTime.copy dt).m_flag = dt.m_flag)
    ∧ ((DateTime.assign s dt).m_jdate = dt.m_jdate ∧ (DateTime.assign s dt).fields = dt.fields
        ∧ (DateTime.assign s dt).m_event = dt.m_event
        ∧ (DateTime.assign s dt).m_flag = dt.m_flag)
    ∧ ((TwoObjects.ofCopy dt).mutateCopied L ops).original = dt
    ∧ ((TwoObjects.ofCopy dt).mutateOriginal L ops).copied = dt
    ∧ ((TwoObjects.ofAssign s dt).mutateCopied L ops).original = dt
    ∧ ((TwoObjects.ofAssign s dt).mutateOriginal L ops).copied = dt :=
  ⟨⟨rfl, rfl⟩, ⟨rfl, rfl, rfl, rfl⟩, ⟨rfl, rfl, rfl, rfl⟩, rfl, rfl, rfl, rfl⟩

/-! ## Setting from fields and from a Julian date (C18, C19) -/

/-- C18: for every library, prior state and integer arguments, valid or not,
`set(year, month, day, hour, minute, second, millisecond)` stores the seven
fields as passed, sets the Julian date to `CDT_JulianDate` of them, the event
to user-set and the flag to the validator's result on them, and returns false
exactly when that result is not the valid code; the constructor with the same
arguments gives the same Julian date, fields, event and flag; and arguments
left out after `year` default to month 1, day 1 and time 00:00:00.000. -/
theorem set_fields_contract (L : CdtLib) (s : DateTime) (y mo d h mi sec ms : Int) :
    (DateTime.set L s y mo d h mi sec ms).1.fields = ⟨y, mo, d, h, mi, sec, ms⟩
    ∧ (DateTime.set L s y mo d h mi sec ms).1.m_jdate = L.CDT_JulianDate y mo d h mi sec ms
    ∧ (DateTime.set L s y mo d h mi sec ms).1.m_event = CDT_User
    ∧ (DateTime.set L s y mo d h mi sec ms).1.m_flag = L.validate ⟨y, mo, d, h, mi, sec, ms⟩
    ∧ ((DateTime.set L s y mo d h mi sec ms).2 = false ↔
        L.validate ⟨y, mo, d, h, mi, sec, ms⟩ ≠ CDT_HasValidDateTime)
    ∧ DateTime.construct L y mo d h mi sec ms = (DateTime.set L s y mo d h mi sec ms).1
    ∧ DateTime.setArgs L s y [] = DateTime.set L s y 1 1 0 0 0 0
    ∧ DateTime.setArgs L s y [mo] = DateTime.set L s y mo 1 0 0 0 0
    ∧ DateTime.setArgs L s y [mo, d] = DateTime.set L s y mo d 0 0 0 0
    ∧ DateTime.setArgs L s y [mo, d, h] = DateTime.set L s y mo d h 0 0 0
    ∧ DateTime.setArgs L s y [mo, d, h, mi] = DateTime.set L s y mo d h mi 0 0
    ∧ DateTime.setArgs L s y [mo, d, h, mi, sec] = DateTime.set L s y mo d h mi sec 0
    ∧ DateTime.setArgs L s y [mo, d, h, mi, sec, ms] = DateTime.set L s y mo d h mi sec ms
    ∧ DateTime.constructArgs L y [] = DateTime.construct L y 1 1 0 0 0 0
    ∧ DateTime.constructArgs L y [mo, d] = DateTime.construct L y mo d 0 0 0 0
    ∧ DateTime.constructArgs L y [mo, d, h, mi, sec, ms]
        = DateTime.construct L y mo d h mi sec ms := by
  refine ⟨rfl, rfl, rfl, rfl, ?_, rfl, rfl, rfl, rfl, rfl, rfl, rfl, rfl, rfl, rfl, rfl⟩
  rw [← Bool.not_eq_true, Ne, not_iff_not]
  exact isValid_snd L _

/-- C19: for every library, prior state and Julian date `jd`, after `set(jd)` the
stored Julian date is `jd`, the seven calendar fields are `CDT_CalendarDate`
of `jd`, the flag is the validator's result on those fields, and the returned
value is true exactly when that flag is the valid code. -/
theorem setJulian_contract (L : CdtLib) (s : DateTime) (jd : ℚ) :
    (DateTime.setJulian L s jd).1.m_jdate = jd
    ∧ (DateTime.setJulian L s jd).1.fields = L.CDT_CalendarDate jd
    ∧ (DateTime.setJulian L s jd).1.m_flag = L.validate (L.CDT_CalendarDate jd)
    ∧ ((DateTime.setJulian L s jd).2 = true ↔
        (DateTime.setJulian L s jd).1.m_flag = CDT_HasValidDateTime) :=
  ⟨rfl, rfl, rfl, (isValid_spec L _).1⟩

/-! ## Single-field setters (C20) -/

/-- C20: for every library, prior state, single-field setter and new value `n`, in
range or not, the setter returns `n`, the field it names holds `n`
afterwards, each of the other six calendar fields is unchanged, the Julian
date is `CDT_JulianDate` of the resulting fields and the flag is the
validator's result on them. -/
theorem field_setter_contract (L : CdtLib) (s : DateTime) (f : FieldSetter) (n : Int) :
    (f.run L s n).2 = n
    ∧ f.get (f.run L s n).1.fields = n
    ∧ (∀ g : FieldSetter, g ≠ f → g.get (f.run L s n).1.fields = g.get s.fields)
    ∧ (f.run L s n).1.m_jdate =
        L.CDT_JulianDate (f.run L s n).1.m_year (f.run L s n).1.m_month (f.run L s n).1.m_day
          (f.run L s n).1.m_hour (f.run L s n).1.m_minute (f.run L s n).1.m_second
          (f.run L s n).1.m_millisecond
    ∧ (f.run L s n).1.m_flag = L.validate (f.run L s n).1.fields := by
  refine ⟨?_, ?_, ?_, ?_, ?_⟩
  · cases f <;> rfl
  · cases f <;> rfl
  · intro g hg
    cases f <;> cases g <;> first | rfl | exact absurd rfl hg
  · cases f <;> rfl
  · cases f <;> rfl

theorem set_invalid_day_example :
    (DateTime.set sampleLib sampleA 2023 2 30 0 0 0 0).1.fields = ⟨2023, 2, 30, 0, 0, 0, 0⟩
    ∧ (DateTime.set sampleLib sampleA 2023 2 30 0 0 0 0).1.m_flag = CDT_HasInvalidDay
    ∧ (DateTime.set sampleLib sampleA 2023 2 30 0 0 0 0).2 = false := by
  decide!

/-! ## Degrees, minutes and seconds (C21, C28) -/

theorem truncToInt_eq (x : ℚ) (n : Int) (hn : 0 ≤ n) (h0 : (n : ℚ) ≤ x) (h1 : x < n + 1) :
    truncToInt x = n := by
  have hx : (0 : ℚ) ≤ x := le_trans (by exact_mod_cast hn) h0
  unfold truncToInt
  rw [if_pos hx, Int.floor_eq_iff]
  exact ⟨h0, h1⟩

theorem truncToInt_nonneg_bounds (x : ℚ) (hx : 0 ≤ x) :
    0 ≤ truncToInt x ∧ (truncToInt x : ℚ) ≤ x ∧ x < truncToInt x + 1 := by
  unfold truncToInt
  rw [if_pos hx]
  exact ⟨Int.floor_nonneg.mpr hx, Int.floor_le x, Int.lt_floor_add_one x⟩

theorem degToDms_exact_sum (d m s : Int) (hd : 0 ≤ d) (hm0 : 0 ≤ m) (hm1 : m ≤ 59)
    (hs0 : 0 ≤ s) (hs1 : s ≤ 59) :
    DegToDms ((d : ℚ) + (m : ℚ) / 60 + (s : ℚ) / 3600) = (d, m, s) := by
  have hdq : (0 : ℚ) ≤ d := by exact_mod_cast hd
  have hm0q : (0 : ℚ) ≤ m := by exact_mod_cast hm0
  have hm1q : (m : ℚ) ≤ 59 := by exact_mod_cast hm1
  have hs0q : (0 : ℚ) ≤ s := by exact_mod_cast hs0
  have hs1q : (s : ℚ) ≤ 59 := by exact_mod_cast hs1
  have habs : |(d : ℚ) + (m : ℚ) / 60 + (s : ℚ) / 3600|
      = (d : ℚ) + (m : ℚ) / 60 + (s : ℚ) / 3600 := by
    apply abs_of_nonneg
    positivity
  have h1 : truncToInt ((d : ℚ) + (m : ℚ) / 60 + (s : ℚ) / 3600) = d := by
    apply truncToInt_eq _ _ hd <;> linarith
  have e2 : 60 * ((d : ℚ) + (m : ℚ) / 60 + (s : ℚ) / 3600 - (d : ℚ))
      = (m : ℚ) + (s : ℚ) / 60 := by
    ring
  have h2 : truncToInt ((m : ℚ) + (s : ℚ) / 60) = m := by
    apply truncToInt_eq _ _ hm0 <;> linarith
  have e3 : 60 * ((m : ℚ) + (s : ℚ) / 60 - (m : ℚ)) + 1 / 2 = (s : ℚ) + 1 / 2 := by ring
  have h3 : truncToInt ((s : ℚ) + 1 / 2) = s := by
    apply truncToInt_eq _ _ hs0 <;> linarith
  unfold DegToDms
  simp only [habs, h1, e2, h2, e3, h3]

theorem log2Fuel_spec (fuel n : Nat) (h1 : 1 ≤ n) (h2 : n ≤ fuel) :
    2 ^ log2Fuel fuel n ≤ n ∧ n < 2 ^ (log2Fuel fuel n + 1) := by
  induction fuel generalizing n with
  | zero => omega
  | succ fuel ih =>
    unfold log2Fuel
    by_cases hn : n < 2
    · rw [if_pos hn]
      have : n = 1 := by omega
      subst this
      norm_num
    · rw [if_neg hn]
      obtain ⟨ih1, ih2⟩ := ih (n / 2) (by omega) (by omega)
      rw [pow_succ, pow_succ]
      rw [pow_succ] at ih2
      constructor <;> omega

theorem pow2_eq_zpow (k : Int) : pow2 k = (2 : ℚ) ^ k := by
  unfold pow2
  split
  · rename_i h
    obtain ⟨n, rfl⟩ := Int.eq_ofNat_of_zero_le h
    simp
  · rename_i h
    obtain ⟨n, hn⟩ := Int.eq_ofNat_of_zero_le (show 0 ≤ -k by omega)
    have hk : k = -(n : Int) := by omega
    subst hk
    simp

theorem floorLog2_spec (x : ℚ) (hx : 0 < x) :
    pow2 (floorLog2 x) ≤ x ∧ x < pow2 (floorLog2 x + 1) := by
  have hnum : 0 < x.num := Rat.num_pos.mpr hx
  have hden : 0 < x.den := x.den_pos
  obtain ⟨a1, a2⟩ := log2Fuel_spec x.num.natAbs x.num.natAbs (by omega) le_rfl
  obtain ⟨b1, b2⟩ := log2Fuel_spec x.den x.den (by omega) le_rfl
  set a := log2Fuel x.num.natAbs x.num.natAbs with ha
  set b := log2Fuel x.den x.den with hb
  have hxe : x = (x.num.natAbs : ℚ) / (x.den : ℚ) := by
    have hc : (x.num.natAbs : ℚ) = (x.num : ℚ) := by
      rw [Nat.cast_natAbs, abs_of_pos hnum]
    rw [hc]
    exact (Rat.num_div_den x).symm
  have hdq : (0 : ℚ) < (x.den : ℚ) := by exact_mod_cast hden
  have a1q : (2 : ℚ) ^ a ≤ (x.num.natAbs : ℚ) := by exact_mod_cast a1
  have a2q : (x.num.natAbs : ℚ) < (2 : ℚ) ^ (a + 1) := by exact_mod_cast a2
  have b1q : (2 : ℚ) ^ b ≤ (x.den : ℚ) := by exact_mod_cast b1
  have b2q : (x.den : ℚ) < (2 : ℚ) ^ (b + 1) := by exact_mod_cast b2
  have hlow : pow2 ((a : Int) - (b : Int) - 1) ≤ x := by
    rw [pow2_eq_zpow, hxe, le_div_iff₀ hdq]
    have e : (2 : ℚ) ^ ((a : Int) - (b : Int) - 1) * (2 : ℚ) ^ (b + 1) = (2 : ℚ) ^ a := by
      rw [← zpow_natCast (2 : ℚ) (b + 1), ← zpow_add₀ (by norm_num : (2 : ℚ) ≠ 0),
        ← zpow_natCast (2 : ℚ) a]
      congr 1
      push_cast
      ring
    calc (2 : ℚ) ^ ((a : Int) - (b : Int) - 1) * (x.den : ℚ)
        ≤ (2 : ℚ) ^ ((a : Int) - (b : Int) - 1) * (2 : ℚ) ^ (b + 1) := by
          apply mul_le_mul_of_nonneg_left b2q.le
          positivity
      _ = (2 : ℚ) ^ a := e
      _ ≤ _ := a1q
  have hhigh : x < pow2 ((a : Int) - (b : Int) + 1) := by
    rw [pow2_eq_zpow, hxe, div_lt_iff₀ hdq]
    have e : (2 : ℚ) ^ ((a : Int) - (b : Int) + 1) * (2 : ℚ) ^ b = (2 : ℚ) ^ (a + 1) := by
      rw [← zpow_natCast (2 : ℚ) b, ← zpow_add₀ (by norm_num : (2 : ℚ) ≠ 0),
        ← zpow_natCast (2 : ℚ) (a + 1)]
      congr 1
      push_cast
      ring
    calc (x.num.natAbs : ℚ) < (2 : ℚ) ^ (a + 1) := a2q
      _ = (2 : ℚ) ^ ((a : Int) - (b : Int) + 1) * (2 : ℚ) ^ b := e.symm
      _ ≤ (2 : ℚ) ^ ((a : Int) - (b : Int) + 1) * (x.den : ℚ) := by
          apply mul_le_mul_of_nonneg_left b1q
          positivity
  unfold floorLog2
  simp only []
  split
  · rename_i h
    exact ⟨h, hhigh⟩
  · rename_i h
    refine ⟨hlow, ?_⟩
    have : (a : Int) - (b : Int) - 1 + 1 = (a : Int) - (b : Int) := by ring
    rw [this]
    exact lt_of_not_le h

theorem roundHalfEven_error (t : ℚ) : |(roundHalfEven t : ℚ) - t| ≤ 1 / 2 := by
  have h1 := Int.floor_le t
  have h2 := Int.lt_floor_add_one t
  unfold roundHalfEven
  simp only []
  rw [abs_le]
  split_ifs <;> push_cast <;> constructor <;> linarith

theorem roundDouble_error (x : ℚ) :
    |roundDouble x - x| ≤ pow2 (floorLog2 |x| - 52) / 2 := by
  unfold roundDouble
  by_cases hx : x = 0
  · rw [if_pos hx, hx]
    simp only [sub_zero, abs_zero]
    rw [pow2_eq_zpow]
    positivity
  · rw [if_neg hx]
    have hq : (0 : ℚ) < pow2 (floorLog2 |x| - 52) := by
      rw [pow2_eq_zpow]
      positivity
    have h := roundHalfEven_error (x / pow2 (floorLog2 |x| - 52))
    have e : (roundHalfEven (x / pow2 (floorLog2 |x| - 52)) : ℚ) * pow2 (floorLog2 |x| - 52) - x
        = ((roundHalfEven (x / pow2 (floorLog2 |x| - 52)) : ℚ)
            - x / pow2 (floorLog2 |x| - 52)) * pow2 (floorLog2 |x| - 52) := by
      field_simp
    rw [e, abs_mul, abs_of_pos hq]
    calc _ ≤ 1 / 2 * pow2 (floorLog2 |x| - 52) := by
          apply mul_le_mul_of_nonneg_right h hq.le
      _ = _ := by ring

theorem roundDouble_examples :
    roundDouble 1 = 1
    ∧ roundDouble (1 / 10) = 3602879701896397 / 36028797018963968
    ∧ roundDouble (-1 / 10) = -3602879701896397 / 36028797018963968
    ∧ roundDouble (1 / 3) = 6004799503160661 / 18014398509481984
    ∧ roundDouble (1 / 60) = 4803839602528529 / 288230376151711744
    ∧ roundDouble (1 / 3600) = 5124095576030431 / 18446744073709551616
    ∧ roundDouble (1 + 1 / 9007199254740992) = 1
    ∧ roundDouble (1 + 3 / 9007199254740992) = 1 + 1 / 2251799813685248
    ∧ roundDouble 9007199254740993 = 9007199254740992 := by
  decide!

/-- C21, evaluated on the code: `DmsToDeg(1, 1, 0)` returns the `double`
1.0166666666666666 (exactly 1144664905290001 / 2^50), which is below
`1 + 1/60`; from it `DegToDms` takes 1 degree, truncates the minutes to 0
and rounds the seconds to 60 without a carry, so
`DegToDms(DmsToDeg(1, 1, 0))` returns `(1, 0, 60)` and not `(1, 1, 0)`,
in exact arithmetic inside `DegToDms` and with every operation rounded to a
`double` alike. -/
theorem dmsToDeg_degToDms_not_inverse :
    DmsToDeg 1 1 0 = 1144664905290001 / 1125899906842624
    ∧ DmsToDeg 1 1 0 < 1 + 1 / 60
    ∧ DegToDms (DmsToDeg 1 1 0) = (1, 0, 60)
    ∧ DegToDmsDouble (DmsToDeg 1 1 0) = (1, 0, 60)
    ∧ DegToDms (DmsToDeg 1 1 0) ≠ (1, 1, 0) := by
  decide!

theorem degToDms_unrounded : DegToDms (149 / 9000) = (0, 0, 60) := by
  decide!

/-- C28, evaluated on the code: for every decimal degree value `x`, `DegToDms(x)`
returns degrees `= floor(|x|) ≥ 0` and `0 ≤ minutes ≤ 59`, but the seconds are
rounded to the nearest whole second without a carry, so they range over
`0 ≤ seconds ≤ 60`: for `x = 149/9000` degrees (59.6 seconds of arc) the
result is `(0, 0, 60)`. -/
theorem degToDms_seconds_can_be_sixty (x : ℚ) :
    (DegToDms x).1 = ⌊|x|⌋ ∧ 0 ≤ (DegToDms x).1
    ∧ 0 ≤ (DegToDms x).2.1 ∧ (DegToDms x).2.1 ≤ 59
    ∧ 0 ≤ (DegToDms x).2.2 ∧ (DegToDms x).2.2 ≤ 60
    ∧ DegToDms (149 / 9000) = (0, 0, 60) := by
  have hx : (0 : ℚ) ≤ |x| := abs_nonneg x
  obtain ⟨hd0, hd1, hd2⟩ := truncToInt_nonneg_bounds |x| hx
  have h2 : (0 : ℚ) ≤ 60 * (|x| - (truncToInt |x| : ℚ)) := by linarith
  obtain ⟨hm0, hm1, hm2⟩ := truncToInt_nonneg_bounds _ h2
  have h3 : (0 : ℚ) ≤ 60 * (60 * (|x| - (truncToInt |x| : ℚ))
      - (truncToInt (60 * (|x| - (truncToInt |x| : ℚ))) : ℚ)) + 1 / 2 := by linarith
  obtain ⟨hs0, hs1, hs2⟩ := truncToInt_nonneg_bounds _ h3
  refine ⟨?_, hd0, hm0, ?_, hs0, ?_, degToDms_unrounded⟩
  · show truncToInt |x| = ⌊|x|⌋
    unfold truncToInt
    rw [if_pos hx]
  · show truncToInt (60 * (|x| - (truncToInt |x| : ℚ))) ≤ 59
    have : (truncToInt (60 * (|x| - (truncToInt |x| : ℚ))) : ℚ) < 60 := by linarith
    have : truncToInt (60 * (|x| - (truncToInt |x| : ℚ))) < 60 := by exact_mod_cast this
    omega
  · show truncToInt (60 * (60 * (|x| - (truncToInt |x| : ℚ))
      - (truncToInt (60 * (|x| - (truncToInt |x| : ℚ))) : ℚ)) + 1 / 2) ≤ 60
    have : (truncToInt (60 * (60 * (|x| - (truncToInt |x| : ℚ))
      - (truncToInt (60 * (|x| - (truncToInt |x| : ℚ))) : ℚ)) + 1 / 2) : ℚ) < 61 := by
      linarith
    have : truncToInt (60 * (60 * (|x| - (truncToInt |x| : ℚ))
      - (truncToInt (60 * (|x| - (truncToInt |x| : ℚ))) : ℚ)) + 1 / 2) < 61 := by
      exact_mod_cast this
    omega

/-! ## GlobalPosition assignment (C29) -/

/-- C29: the assignment `a = b` of GlobalPosition copies the longitude, the
latitude and the UTC offset from `b` and leaves the location name and the zone
name of `a` as they were, while the copy constructor copies all five members. -/
theorem globalPosition_assign_keeps_names (a b : GlobalPosition) :
    (GlobalPosition.assign a b).m_lon = b.m_lon
    ∧ (GlobalPosition.assign a b).m_lat = b.m_lat
    ∧ (GlobalPosition.assign a b).m_gmt = b.m_gmt
    ∧ (GlobalPosition.assign a b).m_locationName = a.m_locationName
    ∧ (GlobalPosition.assign a b).m_zoneName = a.m_zoneName
    ∧ GlobalPosition.copy b = b :=
  ⟨rfl, rfl, rfl, rfl, rfl, rfl⟩

/-! ## The returned value of the rise/set operations (C26) -/

theorem samplePolar_valid :
    samplePolarLib.validate (samplePolarLib.CDT_CalendarDate (sampleA.m_jdate
      + (samplePolarLib.CDT_RiseSet CDT_SunRise sampleA.m_jdate sampleGp.longitude
          sampleGp.latitude sampleGp.gmtDiff).2 / 24)) = CDT_HasValidDateTime := by
  decide!

theorem sampleEarly_invalid :
    sampleLib.validate (sampleLib.CDT_CalendarDate (sampleEarly.m_jdate
      + (sampleLib.CDT_RiseSet CDT_SunRise sampleEarly.m_jdate sampleGp.longitude
          sampleGp.latitude sampleGp.gmtDiff).2 / 24)) ≠ CDT_HasValidDateTime := by
  decide!

/-- C26: for every library, state, position and rise/set/twilight operation, with
`r` the solver's result and `c` the calendar fields of the shifted Julian date
`m_jdate + r.2 / 24`: the Julian date, the fields and the event are changed
to the shifted date, `c` and the operation's kind whatever is returned; the
returned boolean is true exactly when `c` validates, whatever outcome `r.1`
the solver reported; when it is true the stored flag is `r.1`, also when that
is never-rises, never-sets, always-light or always-dark; and when it is false
the stored flag is the validator's code for `c`, which is not the valid code. -/
theorem riseSet_return_value (L : CdtLib) (s : DateTime) (gp : GlobalPosition)
    (op : RiseSetOp) :
    (op.run L s gp).1.m_jdate
        = s.m_jdate + (L.CDT_RiseSet op.kind s.m_jdate gp.longitude gp.latitude gp.gmtDiff).2 / 24
    ∧ (op.run L s gp).1.fields = L.CDT_CalendarDate (s.m_jdate
        + (L.CDT_RiseSet op.kind s.m_jdate gp.longitude gp.latitude gp.gmtDiff).2 / 24)
    ∧ (op.run L s gp).1.m_event = op.kind
    ∧ ((op.run L s gp).2 = true ↔
        L.validate (L.CDT_CalendarDate (s.m_jdate
          + (L.CDT_RiseSet op.kind s.m_jdate gp.longitude gp.latitude gp.gmtDiff).2 / 24))
          = CDT_HasValidDateTime)
    ∧ ((op.run L s gp).2 = true →
        (op.run L s gp).1.m_flag
          = (L.CDT_RiseSet op.kind s.m_jdate gp.longitude gp.latitude gp.gmtDiff).1)
    ∧ ((op.run L s gp).2 = false →
        (op.run L s gp).1.m_flag
            = L.validate (L.CDT_CalendarDate (s.m_jdate
                + (L.CDT_RiseSet op.kind s.m_jdate gp.longitude gp.latitude gp.gmtDiff).2 / 24))
          ∧ (op.run L s gp).1.m_flag ≠ CDT_HasValidDateTime) := by
  rw [riseSetOp_run_eq]
  have hret := calculateSunTime_ret L s op.kind gp
  have hflag := calculateSunTime_flag L s op.kind gp
  refine ⟨calculateSunTime_jdate L s op.kind gp, calculateSunTime_fields L s op.kind gp,
    calculateSunTime_event L s op.kind gp, hret, ?_, ?_⟩
  · intro h
    rw [hflag, if_pos (hret.mp h)]
  · intro h
    have hv : ¬ L.validate (L.CDT_CalendarDate (s.m_jdate
        + (L.CDT_RiseSet op.kind s.m_jdate gp.longitude gp.latitude gp.gmtDiff).2 / 24))
          = CDT_HasValidDateTime := by
      intro hv
      rw [hret.mpr hv] at h
      exact Bool.noConfusion h
    rw [hflag, if_neg hv]
    exact ⟨rfl, hv⟩

/-- C26 at concrete inputs: with a solver that reports polar day, `sunRise` on
the sample DateTime 2024-01-01 returns true and stores the always-light flag;
on the sample DateTime of Julian date -1000.0, `sunRise` returns false and
stores the invalid-year code. -/
theorem riseSet_return_value_witness :
    (DateTime.sunRise samplePolarLib sampleA sampleGp).2 = true
    ∧ (DateTime.sunRise samplePolarLib sampleA sampleGp).1.m_flag = CDT_Light
    ∧ (DateTime.sunRise sampleLib sampleEarly sampleGp).2 = false
    ∧ (DateTime.sunRise sampleLib sampleEarly sampleGp).1.m_flag = CDT_HasInvalidYear :=
  have hp := riseSet_return_value samplePolarLib sampleA sampleGp RiseSetOp.sunRise
  have he := riseSet_return_value sampleLib sampleEarly sampleGp RiseSetOp.sunRise
  have h1 : (DateTime.sunRise samplePolarLib sampleA sampleGp).2 = true :=
    hp.2.2.2.1.mpr samplePolar_valid
  have h2 : (DateTime.sunRise sampleLib sampleEarly sampleGp).2 = false := by
    have hne : ¬ (DateTime.sunRise sampleLib sampleEarly sampleGp).2 = true :=
      fun h => sampleEarly_invalid (he.2.2.2.1.mp h)
    simpa using hne
  ⟨h1, hp.2.2.2.2.1 h1, h2, by decide!⟩

/-! ## setTime (C27) -/

/-- C27: for every library, state and arguments, `setTime(hour, minute, second,
millisecond)` leaves year, month and day unchanged; each time field holds the
argument when the argument is not negative and keeps its stored value when it
is negative; the flag is the validator's result on the resulting fields, in
which a negative argument does not occur; and `setTime(-1, -1, -1, -1)` leaves
all seven fields unchanged, sets the event tag to user-set and the Julian
date to `CDT_JulianDate` of the fields, so on a DateTime whose Julian date is
the Julian date of its fields it changes nothing but the event tag and the
flag. -/
theorem setTime_contract (L : CdtLib) (s : DateTime) (hour minute second millisecond : Int) :
    (DateTime.setTime L s hour minute second millisecond).1.fields
        = ⟨s.m_year, s.m_month, s.m_day,
            if hour ≥ 0 then hour else s.m_hour,
            if minute ≥ 0 then minute else s.m_minute,
            if second ≥ 0 then second else s.m_second,
            if millisecond ≥ 0 then millisecond else s.m_millisecond⟩
    ∧ (DateTime.setTime L s hour minute second millisecond).1.m_flag
        = L.validate ⟨s.m_year, s.m_month, s.m_day,
            if hour ≥ 0 then hour else s.m_hour,
            if minute ≥ 0 then minute else s.m_minute,
            if second ≥ 0 then second else s.m_second,
            if millisecond ≥ 0 then millisecond else s.m_millisecond⟩
    ∧ (DateTime.setTime L s hour minute second millisecond).1.m_event = CDT_User
    ∧ (DateTime.setTime L s (-1) (-1) (-1) (-1)).1.fields = s.fields
    ∧ (DateTime.setTime L s (-1) (-1) (-1) (-1)).1.m_jdate
        = L.CDT_JulianDate s.m_year s.m_month s.m_day s.m_hour s.m_minute s.m_second
            s.m_millisecond
    ∧ (s.m_jdate = L.CDT_JulianDate s.m_year s.m_month s.m_day s.m_hour s.m_minute
          s.m_second s.m_millisecond →
        (DateTime.setTime L s (-1) (-1) (-1) (-1)).1
          = { s with m_event := CDT_User, m_flag := L.validate s.fields }) := by
  refine ⟨?_, ?_, ?_, rfl, rfl, ?_⟩
  · simp only [DateTime.setTime, DateTime.isValid, DateTime.calculateJulianDate,
      DateTime.fields]
    split_ifs <;> rfl
  · simp only [DateTime.setTime, DateTime.isValid, DateTime.calculateJulianDate,
      CdtLib.validate]
    split_ifs <;> rfl
  · simp only [DateTime.setTime, DateTime.isValid, DateTime.calculateJulianDate]
  · intro h
    show ({ s with m_event := CDT_User, m_jdate := (L.CDT_JulianDate s.m_year s.m_month s.m_day
      s.m_hour s.m_minute s.m_second s.m_millisecond), m_flag := L.validate s.fields } : DateTime)
        = _
    rw [← h]

theorem sampleA_jdate_of_fields :
    sampleA.m_jdate = sampleLib.CDT_JulianDate sampleA.m_year sampleA.m_month sampleA.m_day
      sampleA.m_hour sampleA.m_minute sampleA.m_second sampleA.m_millisecond := rfl

/-- C27 at a concrete input: the sample DateTime 2024-01-01 holds the Julian date
of its fields, and `setTime(-1, -1, -1, -1)` changes only its event tag and
flag, which are again user-set and valid. -/
theorem setTime_contract_witness :
    sampleA.m_jdate = sampleLib.CDT_JulianDate sampleA.m_year sampleA.m_month sampleA.m_day
      sampleA.m_hour sampleA.m_minute sampleA.m_second sampleA.m_millisecond
    ∧ (DateTime.setTime sampleLib sampleA (-1) (-1) (-1) (-1)).1
        = { sampleA with m_event := CDT_User, m_flag := sampleLib.validate sampleA.fields } :=
  ⟨sampleA_jdate_of_fields,
    (setTime_contract sampleLib sampleA 0 0 0 0).2.2.2.2.2 sampleA_jdate_of_fields⟩

/-! ## Adding zero (C30) -/

theorem sampleHalfMs_addDays_zero :
    (DateTime.addDays sampleLib sampleHalfMs 0).1.m_jdate = 2451545
    ∧ sampleHalfMs.m_jdate = 2451545 + 1 / 172800000
    ∧ (DateTime.addDays sampleLib sampleHalfMs 0).1.m_jdate ≠ sampleHalfMs.m_jdate := by
  decide!

/-- C30, evaluated on the code: for every library and state `addDays(0)` leaves
the seven calendar fields unchanged and sets the Julian date to
`CDT_JulianDate` of them, so the Julian date is unchanged exactly when it was
the Julian date of the fields.  On a DateTime just set with `set(jd)` for
`jd = 2451545 + 1/172800000` (half a millisecond after 2000-01-01T12:00:00;
calendar library written from the specification) `addDays(0)` replaces the
stored Julian date by 2451545. -/
theorem addDays_zero_not_identity (L : CdtLib) (s : DateTime) :
    (DateTime.addDays L s 0).1.fields = s.fields
    ∧ (DateTime.addDays L s 0).1.m_jdate
        = L.CDT_JulianDate s.m_year s.m_month s.m_day s.m_hour s.m_minute s.m_second
            s.m_millisecond
    ∧ sampleHalfMs = (DateTime.setJulian sampleLib sampleA (2451545 + 1 / 172800000)).1
    ∧ (DateTime.addDays sampleLib sampleHalfMs 0).1.m_jdate = 2451545
    ∧ (DateTime.addDays sampleLib sampleHalfMs 0).1.m_jdate ≠ sampleHalfMs.m_jdate :=
  ⟨rfl, rfl, rfl, sampleHalfMs_addDays_zero.1, sampleHalfMs_addDays_zero.2.2⟩

/-! ## Validation written from the specification (C22, C23, C24) -/

theorem yearOk_false (y : Int) : yearOk y = false ↔ y < -4712 := by
  unfold yearOk
  rw [decide_eq_false_iff_not]
  omega

theorem monthOk_false (mo : Int) : monthOk mo = false ↔ (mo < 1 ∨ mo > 12) := by
  unfold monthOk
  rw [decide_eq_false_iff_not]
  omega

theorem dayOk_false (y mo d : Int) :
    dayOk y mo d = false ↔
      ((d < 1 ∨ d > monthLength y mo) ∨ (y = 1582 ∧ mo = 10 ∧ 5 ≤ d ∧ d ≤ 14)) := by
  unfold dayOk
  rw [decide_eq_false_iff_not]
  constructor
  · intro h
    by_cases h3 : d < 1 ∨ d > monthLength y mo
    · exact Or.inl h3
    · right
      by_contra h4
      exact h ⟨by omega, by omega, h4⟩
  · rintro (h | h) ⟨h1, h2, h3⟩
    · omega
    · exact h3 h

theorem hourOk_false (h : Int) : hourOk h = false ↔ (h < 0 ∨ h > 23) := by
  unfold hourOk
  rw [decide_eq_false_iff_not]
  omega

theorem minuteOk_false (mi : Int) : minuteOk mi = false ↔ (mi < 0 ∨ mi > 59) := by
  unfold minuteOk
  rw [decide_eq_false_iff_not]
  omega

theorem secondOk_false (sec : Int) : secondOk sec = false ↔ (sec < 0 ∨ sec > 59) := by
  unfold secondOk
  rw [decide_eq_false_iff_not]
  omega

theorem millisecondOk_false (ms : Int) : millisecondOk ms = false ↔ (ms < 0 ∨ ms > 999) := by
  unfold millisecondOk
  rw [decide_eq_false_iff_not]
  omega

theorem validDate_cases (y mo d : Int) :
    CDT_ValidDate y mo d =
      if yearOk y = false then CDT_HasInvalidYear
      else if monthOk mo = false then CDT_HasInvalidMonth
      else if dayOk y mo d = false then CDT_HasInvalidDay
      else CDT_HasValidDate := by
  simp only [yearOk_false, monthOk_false, dayOk_false]
  unfold CDT_ValidDate
  by_cases h1 : y < -4712
  · simp only [h1, if_true]
  · by_cases h2 : mo < 1 ∨ mo > 12
    · simp only [h1, h2, if_true, if_false]
    · by_cases h3 : d < 1 ∨ d > monthLength y mo
      · simp only [h1, h2, h3, if_true, if_false, true_or]
      · by_cases h4 : y = 1582 ∧ mo = 10 ∧ 5 ≤ d ∧ d ≤ 14
        · rw [if_neg h1, if_neg h2, if_neg h3, if_pos h4, if_neg h1, if_neg h2,
            if_pos (Or.inr h4)]
        · rw [if_neg h1, if_neg h2, if_neg h3, if_neg h4, if_neg h1, if_neg h2,
            if_neg (not_or.mpr ⟨h3, h4⟩)]

theorem validTime_cases (h mi sec ms : Int) :
    CDT_ValidTime h mi sec ms =
      if hourOk h = false then CDT_HasInvalidHour
      else if minuteOk mi = false then CDT_HasInvalidMinute
      else if secondOk sec = false then CDT_HasInvalidSecond
      else if millisecondOk ms = false then CDT_HasInvalidMillisecond
      else CDT_HasValidTime := by
  simp only [hourOk_false, minuteOk_false, secondOk_false, millisecondOk_false]
  rfl

theorem validDateTime_eq_firstInvalidField (y mo d h mi sec ms : Int) :
    CDT_ValidDateTime y mo d h mi sec ms = firstInvalidField ⟨y, mo, d, h, mi, sec, ms⟩ := by
  unfold CDT_ValidDateTime firstInvalidField
  rw [validDate_cases, validTime_cases]
  dsimp only
  by_cases h1 : yearOk y = false
  · simp [h1]
  · by_cases h2 : monthOk mo = false
    · simp [h1, h2]
    · by_cases h3 : dayOk y mo d = false
      · simp [h1, h2, h3]
      · by_cases h4 : hourOk h = false
        · simp [h1, h2, h3, h4]
        · by_cases h5 : minuteOk mi = false
          · simp [h1, h2, h3, h4, h5]
          · by_cases h6 : secondOk sec = false
            · simp [h1, h2, h3, h4, h5, h6]
            · by_cases h7 : millisecondOk ms = false
              · simp [h1, h2, h3, h4, h5, h6, h7]
              · simp [h1, h2, h3, h4, h5, h6, h7]

theorem firstInvalidField_valid_iff (c : CalendarFields) :
    firstInvalidField c = CDT_HasValidDateTime ↔
      (yearOk c.year = true ∧ monthOk c.month = true ∧ dayOk c.year c.month c.day = true
        ∧ hourOk c.hour = true ∧ minuteOk c.minute = true ∧ secondOk c.second = true
        ∧ millisecondOk c.millisecond = true) := by
  unfold firstInvalidField
  split_ifs <;> simp_all

theorem priority_examples :
    CDT_ValidDateTime (-5000) 13 40 25 61 61 1000 = CDT_HasInvalidYear
    ∧ CDT_ValidDateTime 2024 13 40 25 61 61 1000 = CDT_HasInvalidMonth
    ∧ CDT_ValidDateTime 2024 2 40 25 61 61 1000 = CDT_HasInvalidDay
    ∧ CDT_ValidDateTime 2024 2 29 25 61 61 1000 = CDT_HasInvalidHour
    ∧ CDT_ValidDateTime 2024 2 29 23 61 61 1000 = CDT_HasInvalidMinute
    ∧ CDT_ValidDateTime 2024 2 29 23 59 61 1000 = CDT_HasInvalidSecond
    ∧ CDT_ValidDateTime 2024 2 29 23 59 59 1000 = CDT_HasInvalidMillisecond
    ∧ CDT_ValidDateTime 2024 2 29 23 59 59 999 = CDT_HasValidDateTime := by
  decide

/-- C22: with the validator written from the specification, for every
astronomical part of the library and every state, the flag stored by
`isValid()` is the code of the first invalid field in the order year, month,
day, hour, minute, second, millisecond; it is the valid code exactly when all
seven fields pass; the mutator `set(fields)` stores the same flag; and with
every field from the month on invalid the codes come out in that order as the
earlier fields are made valid one by one. -/
theorem validation_priority (riseSet : CDT_Event → ℚ → ℚ → ℚ → ℚ → CDT_Flag × ℚ)
    (solsticeGMT : CDT_Event → Int → ℚ) (newMoonGMT : Int → Int → ℚ)
    (easterDay : Int → Int × Int) (s : DateTime) :
    (DateTime.isValid (cdtlib riseSet solsticeGMT newMoonGMT easterDay) s).1.m_flag
        = firstInvalidField s.fields
    ∧ ((DateTime.isValid (cdtlib riseSet solsticeGMT newMoonGMT easterDay) s).1.m_flag
          = CDT_HasValidDateTime ↔
        (yearOk s.m_year = true ∧ monthOk s.m_month = true
          ∧ dayOk s.m_year s.m_month s.m_day = true ∧ hourOk s.m_hour = true
          ∧ minuteOk s.m_minute = true ∧ secondOk s.m_second = true
          ∧ millisecondOk s.m_millisecond = true))
    ∧ (∀ y mo d h mi sec ms,
        (DateTime.set (cdtlib riseSet solsticeGMT newMoonGMT easterDay) s y mo d h mi sec ms).1.m_flag
          = firstInvalidField ⟨y, mo, d, h, mi, sec, ms⟩)
    ∧ firstInvalidField ⟨-5000, 13, 40, 25, 61, 61, 1000⟩ = CDT_HasInvalidYear
    ∧ firstInvalidField ⟨2024, 13, 40, 25, 61, 61, 1000⟩ = CDT_HasInvalidMonth
    ∧ firstInvalidField ⟨2024, 2, 40, 25, 61, 61, 1000⟩ = CDT_HasInvalidDay
    ∧ firstInvalidField ⟨2024, 2, 29, 25, 61, 61, 1000⟩ = CDT_HasInvalidHour
    ∧ firstInvalidField ⟨2024, 2, 29, 23, 61, 61, 1000⟩ = CDT_HasInvalidMinute
    ∧ firstInvalidField ⟨2024, 2, 29, 23, 59, 61, 1000⟩ = CDT_HasInvalidSecond
    ∧ firstInvalidField ⟨2024, 2, 29, 23, 59, 59, 1000⟩ = CDT_HasInvalidMillisecond := by
  have hflag : (DateTime.isValid (cdtlib riseSet solsticeGMT newMoonGMT easterDay) s).1.m_flag
      = firstInvalidField s.fields :=
    validDateTime_eq_firstInvalidField s.m_year s.m_month s.m_day s.m_hour s.m_minute
      s.m_second s.m_millisecond
  refine ⟨hflag, ?_, ?_, ?_⟩
  · rw [hflag]
    exact firstInvalidField_valid_iff s.fields
  · intro y mo d h mi sec ms
    exact validDateTime_eq_firstInvalidField y mo d h mi sec ms
  · simp only [← validDateTime_eq_firstInvalidField]
    exact ⟨priority_examples.1, priority_examples.2.1, priority_examples.2.2.1,
      priority_examples.2.2.2.1, priority_examples.2.2.2.2.1, priority_examples.2.2.2.2.2.1,
      priority_examples.2.2.2.2.2.2.1⟩

theorem leapYear_fixtures :
    CDT_LeapYear 2000 = 1 ∧ CDT_LeapYear 2004 = 1 ∧ CDT_LeapYear 1900 = 0
    ∧ CDT_LeapYear 1500 = 1 := by
  decide

/-- C23: with the leap-year function written from the specification,
`isLeapYear()` is 0 or 1 for every stored year; for years up to 1582 it is 1
exactly when the year is divisible by 4; for years from 1583 on it is 1
exactly when the year is divisible by 4 and either not by 100 or also by 400;
2000 and 2004 are leap and 1900 is not. -/
theorem isLeapYear_rule (s : DateTime) :
    (DateTime.isLeapYear CDT_LeapYear s = 0 ∨ DateTime.isLeapYear CDT_LeapYear s = 1)
    ∧ (s.m_year ≤ 1582 → (DateTime.isLeapYear CDT_LeapYear s = 1 ↔ (4 : Int) ∣ s.m_year))
    ∧ (1583 ≤ s.m_year → (DateTime.isLeapYear CDT_LeapYear s = 1 ↔
        ((4 : Int) ∣ s.m_year ∧ (¬ (100 : Int) ∣ s.m_year ∨ (400 : Int) ∣ s.m_year))))
    ∧ DateTime.isLeapYear CDT_LeapYear { s with m_year := 2000 } = 1
    ∧ DateTime.isLeapYear CDT_LeapYear { s with m_year := 2004 } = 1
    ∧ DateTime.isLeapYear CDT_LeapYear { s with m_year := 1900 } = 0 := by
  refine ⟨?_, ?_, ?_, leapYear_fixtures.1, leapYear_fixtures.2.1, leapYear_fixtures.2.2.1⟩
  · unfold DateTime.isLeapYear CDT_LeapYear
    split_ifs <;> simp
  · intro h
    unfold DateTime.isLeapYear CDT_LeapYear
    rw [if_pos h]
    split_ifs <;> omega
  · intro h
    unfold DateTime.isLeapYear CDT_LeapYear
    rw [if_neg (by omega)]
    split_ifs <;> omega

/-- C23 at concrete inputs: a DateTime of the year 1500 (not after 1582, divisible
by 4) is a leap year, and a DateTime of the year 2024 (after 1582, divisible by
4 and not by 100) is a leap year. -/
theorem isLeapYear_rule_witness :
    (DateTime.construct sampleLib 1500 1 1 0 0 0 0).m_year ≤ 1582
    ∧ DateTime.isLeapYear CDT_LeapYear (DateTime.construct sampleLib 1500 1 1 0 0 0 0) = 1
    ∧ 1583 ≤ sampleA.m_year
    ∧ DateTime.isLeapYear CDT_LeapYear sampleA = 1 :=
  ⟨by decide,
    ((isLeapYear_rule (DateTime.construct sampleLib 1500 1 1 0 0 0 0)).2.1 (by decide)).mpr
      (by decide),
    by decide,
    ((isLeapYear_rule sampleA).2.2.1 (by decide)).mpr (by decide)⟩

theorem october_1582_length : monthLength 1582 10 = 31 := by decide

/-- C24: with the validator written from the specification, for every
astronomical part of the library, prior state and valid time fields,
`set(1582, 10, d, ...)` returns false with the invalid-day flag for every `d`
from 5 to 14, and returns true with the valid flag for `d = 4` and `d = 15`. -/
theorem reform_gap_rejected (riseSet : CDT_Event → ℚ → ℚ → ℚ → ℚ → CDT_Flag × ℚ)
    (solsticeGMT : CDT_Event → Int → ℚ) (newMoonGMT : Int → Int → ℚ)
    (easterDay : Int → Int × Int) (s : DateTime) (d h mi sec ms : Int)
    (hd : 5 ≤ d ∧ d ≤ 14) (hh : 0 ≤ h ∧ h ≤ 23) (hmi : 0 ≤ mi ∧ mi ≤ 59)
    (hsec : 0 ≤ sec ∧ sec ≤ 59) (hms : 0 ≤ ms ∧ ms ≤ 999) :
    ((DateTime.set (cdtlib riseSet solsticeGMT newMoonGMT easterDay) s 1582 10 d h mi sec ms).2
        = false
      ∧ (DateTime.set (cdtlib riseSet solsticeGMT newMoonGMT easterDay) s 1582 10 d h mi sec
          ms).1.m_flag = CDT_HasInvalidDay)
    ∧ ((DateTime.set (cdtlib riseSet solsticeGMT newMoonGMT easterDay) s 1582 10 4 h mi sec ms).2
        = true
      ∧ (DateTime.set (cdtlib riseSet solsticeGMT newMoonGMT easterDay) s 1582 10 4 h mi sec
          ms).1.m_flag = CDT_HasValidDateTime)
    ∧ ((DateTime.set (cdtlib riseSet solsticeGMT newMoonGMT easterDay) s 1582 10 15 h mi sec ms).2
        = true
      ∧ (DateTime.set (cdtlib riseSet solsticeGMT newMoonGMT easterDay) s 1582 10 15 h mi sec
          ms).1.m_flag = CDT_HasValidDateTime) := by
  have hy : yearOk 1582 = true := by decide
  have hmo : monthOk 10 = true := by decide
  have hh' : hourOk h = true := by unfold hourOk; exact decide_eq_true hh
  have hmi' : minuteOk mi = true := by unfold minuteOk; exact decide_eq_true hmi
  have hsec' : secondOk sec = true := by unfold secondOk; exact decide_eq_true hsec
  have hms' : millisecondOk ms = true := by unfold millisecondOk; exact decide_eq_true hms
  have hgap : dayOk 1582 10 d = false := by
    rw [dayOk_false]
    exact Or.inr ⟨rfl, rfl, hd.1, hd.2⟩
  have h4 : dayOk 1582 10 4 = true := by decide
  have h15 : dayOk 1582 10 15 = true := by decide
  have fd : CDT_ValidDateTime 1582 10 d h mi sec ms = CDT_HasInvalidDay := by
    rw [validDateTime_eq_firstInvalidField]
    simp [firstInvalidField, hy, hmo, hgap]
  have f4 : CDT_ValidDateTime 1582 10 4 h mi sec ms = CDT_HasValidDateTime := by
    rw [validDateTime_eq_firstInvalidField, firstInvalidField_valid_iff]
    exact ⟨hy, hmo, h4, hh', hmi', hsec', hms'⟩
  have f15 : CDT_ValidDateTime 1582 10 15 h mi sec ms = CDT_HasValidDateTime := by
    rw [validDateTime_eq_firstInvalidField, firstInvalidField_valid_iff]
    exact ⟨hy, hmo, h15, hh', hmi', hsec', hms'⟩
  refine ⟨⟨?_, fd⟩, ⟨?_, f4⟩, ⟨?_, f15⟩⟩
  · have hne : ¬ (DateTime.set (cdtlib riseSet solsticeGMT newMoonGMT easterDay) s 1582 10 d h
        mi sec ms).2 = true := by
      intro ht
      have := (isValid_snd (cdtlib riseSet solsticeGMT newMoonGMT easterDay) _).mp ht
      have h2 : CDT_ValidDateTime 1582 10 d h mi sec ms = CDT_HasValidDateTime := this
      rw [fd] at h2
      exact CDT_Flag.noConfusion h2
    simpa using hne
  · exact (isValid_snd (cdtlib riseSet solsticeGMT newMoonGMT easterDay) _).mpr f4
  · exact (isValid_snd (cdtlib riseSet solsticeGMT newMoonGMT easterDay) _).mpr f15

/-- C24 at a concrete input: `set(1582, 10, 10)` at midnight on the sample
DateTime returns false with the invalid-day flag. -/
theorem reform_gap_rejected_witness :
    ((5 : Int) ≤ 10 ∧ (10 : Int) ≤ 14)
    ∧ (DateTime.set sampleLib sampleA 1582 10 10 0 0 0 0).2 = false
    ∧ (DateTime.set sampleLib sampleA 1582 10 10 0 0 0 0).1.m_flag = CDT_HasInvalidDay :=
  ⟨by decide,
    (reform_gap_rejected (fun _ _ _ _ _ => (CDT_Rises, 6)) (fun _ _ => 2451545)
      (fun _ _ => 2451545) (fun _ => (3, 31)) sampleA 10 0 0 0 0 (by decide) (by decide)
      (by decide) (by decide) (by decide)).1⟩

/-! ## Round trip of the Julian date (C25) -/

theorem dayCount_of_parts (b c d e year month day : Int)
    (hc : c = (20 * b - 2442) / 7305) (hd : d = (1461 * c) / 4)
    (he : e = (10000 * (b - d)) / 306001)
    (hday : day = b - d - (306001 * e) / 10000)
    (hmonth : month = if e < 14 then e - 1 else e - 13)
    (hyear : year = if month > 2 then c - 4716 else c - 4715) :
    (if month ≤ 2 then year - 1 else year) = c - 4716
    ∧ (if month ≤ 2 then month + 12 else month) + 1 = e := by
  have he4 : 4 ≤ e ∧ e ≤ 15 := by
    subst hc hd he
    omega
  subst hmonth hyear
  split_ifs <;> omega

theorem julian_test (b c d e year month day : Int) (hb : b < 2299161 + 1524)
    (hc : c = (20 * b - 2442) / 7305) (hd : d = (1461 * c) / 4)
    (he : e = (10000 * (b - d)) / 306001)
    (hday : day = b - d - (306001 * e) / 10000)
    (hmonth : month = if e < 14 then e - 1 else e - 13)
    (hyear : year = if month > 2 then c - 4716 else c - 4715) :
    ¬ (year > 1582 ∨ (year = 1582 ∧ (month > 10 ∨ (month = 10 ∧ day ≥ 15)))) := by
  have he4 : 4 ≤ e ∧ e ≤ 15 := by
    subst hc hd he
    omega
  have hc1 : c ≤ 6298 := by omega
  subst hmonth hyear
  split_ifs <;> omega

theorem gregorian_test (b c d e year month day : Int) (hb : 2300695 ≤ b)
    (hc : c = (20 * b - 2442) / 7305) (hd : d = (1461 * c) / 4)
    (he : e = (10000 * (b - d)) / 306001)
    (hday : day = b - d - (306001 * e) / 10000)
    (hmonth : month = if e < 14 then e - 1 else e - 13)
    (hyear : year = if month > 2 then c - 4716 else c - 4715) :
    (year > 1582 ∨ (year = 1582 ∧ (month > 10 ∨ (month = 10 ∧ day ≥ 15)))) := by
  have he4 : 4 ≤ e ∧ e ≤ 15 := by
    subst hc hd he
    omega
  have hc1 : 6298 ≤ c := by omega
  subst hmonth hyear
  split_ifs <;> omega

theorem century (z al a b c : Int) (hz : 2299161 ≤ z)
    (hal : al = (4 * z - 7468865) / 146097)
    (ha : a = z + 1 + al - al / 4) (hb : b = a + 1524)
    (hc : c = (20 * b - 2442) / 7305) :
    2300695 ≤ b ∧ 3 + al - al / 4 - (c - 4716) / 100 + ((c - 4716) / 100) / 4 = 0 := by
  obtain ⟨q, hq⟩ : ∃ q : Int, q = al / 4 := ⟨_, rfl⟩
  obtain ⟨r, hr⟩ : ∃ r : Int, r = al - 4 * q := ⟨_, rfl⟩
  have hr0 : 0 ≤ r ∧ r ≤ 3 := by omega
  have hal0 : 146097 * al ≤ 4 * z - 7468865
      ∧ 4 * z - 7468865 ≤ 146097 * al + 146096 := by omega
  have hal1 : 11 ≤ al := by omega
  have hbq : b = z + 1525 + 3 * q + r := by omega
  have h1 : 7305 * (400 * q + 100 * r + 5116) ≤ 20 * b - 2442 := by omega
  have h2 : 20 * b - 2442 < 7305 * (400 * q + 100 * r + 5216) := by omega
  have hc1 : 400 * q + 100 * r + 5116 ≤ c := by
    rw [hc]
    exact Int.le_ediv_of_mul_le (by norm_num) (by linarith)
  have hc2 : c < 400 * q + 100 * r + 5216 := by
    rw [hc]
    exact Int.ediv_lt_of_lt_mul (by norm_num) (by linarith)
  have hA : (c - 4716) / 100 = 4 * q + r + 4 := by omega
  have hA4 : ((c - 4716) / 100) / 4 = q + 1 := by omega
  refine ⟨by omega, ?_⟩
  rw [hA4, hA, ← hq]
  omega

theorem dayCount_eq (year month day y m : Int)
    (hy : (if month ≤ 2 then year - 1 else year) = y)
    (hm : (if month ≤ 2 then month + 12 else month) = m) :
    dayCount year month day =
      (1461 * (y + 4716)) / 4 + (306001 * (m + 1)) / 10000 + day
        + (if year > 1582 ∨ (year = 1582 ∧ (month > 10 ∨ (month = 10 ∧ day ≥ 15)))
           then 2 - y / 100 + (y / 100) / 4 else 0) := by
  subst hy hm
  rfl

theorem dayCount_of_b (a : Int)
    (hgreg : 2299161 + 1524 ≤ a + 1524 → 2300695 ≤ a + 1524) :
    dayCount
      (if (if (10000 * (a + 1524 - (1461 * ((20 * (a + 1524) - 2442) / 7305)) / 4)) / 306001 < 14
            then (10000 * (a + 1524 - (1461 * ((20 * (a + 1524) - 2442) / 7305)) / 4)) / 306001 - 1
            else (10000 * (a + 1524 - (1461 * ((20 * (a + 1524) - 2442) / 7305)) / 4)) / 306001 - 13)
          > 2
        then (20 * (a + 1524) - 2442) / 7305 - 4716 else (20 * (a + 1524) - 2442) / 7305 - 4715)
      (if (10000 * (a + 1524 - (1461 * ((20 * (a + 1524) - 2442) / 7305)) / 4)) / 306001 < 14
        then (10000 * (a + 1524 - (1461 * ((20 * (a + 1524) - 2442) / 7305)) / 4)) / 306001 - 1
        else (10000 * (a + 1524 - (1461 * ((20 * (a + 1524) - 2442) / 7305)) / 4)) / 306001 - 13)
      (a + 1524 - (1461 * ((20 * (a + 1524) - 2442) / 7305)) / 4
        - (306001 * ((10000 * (a + 1524 - (1461 * ((20 * (a + 1524) - 2442) / 7305)) / 4))
            / 306001)) / 10000)
    = a + 1524
      + (if 2299161 + 1524 ≤ a + 1524
         then 2 - ((20 * (a + 1524) - 2442) / 7305 - 4716) / 100
            + (((20 * (a + 1524) - 2442) / 7305 - 4716) / 100) / 4
         else 0) := by
  generalize hb : a + 1524 = b at *
  generalize hc : (20 * b - 2442) / 7305 = c
  generalize hd : (1461 * c) / 4 = d
  generalize he : (10000 * (b - d)) / 306001 = e
  generalize hmonth : (if e < 14 then e - 1 else e - 13) = month
  generalize hyear : (if month > 2 then c - 4716 else c - 4715) = year
  generalize hday : b - d - (306001 * e) / 10000 = day
  obtain ⟨hy, hm⟩ := dayCount_of_parts b c d e year month day hc.symm hd.symm he.symm
    hday.symm hmonth.symm hyear.symm
  have hm' : (if month ≤ 2 then month + 12 else month) = e - 1 := by omega
  rw [dayCount_eq year month day (c - 4716) (e - 1) hy hm']
  have e1 : c - 4716 + 4716 = c := by ring
  have e2 : e - 1 + 1 = e := by ring
  rw [e1, e2, hd]
  by_cases hz : 2299161 + 1524 ≤ b
  · have ht := gregorian_test b c d e year month day (hgreg hz) hc.symm hd.symm he.symm
      hday.symm hmonth.symm hyear.symm
    rw [if_pos ht, if_pos hz]
    omega
  · have ht := julian_test b c d e year month day (by omega) hc.symm hd.symm he.symm
      hday.symm hmonth.symm hyear.symm
    rw [if_neg ht, if_neg hz]
    omega

theorem dayCount_roundtrip (z : Int) :
    dayCount (dateOfDayCount z).1 (dateOfDayCount z).2.1 (dateOfDayCount z).2.2 = z + 1524 := by
  unfold dateOfDayCount
  simp only []
  by_cases hz : z < 2299161
  · simp only [if_pos hz]
    rw [dayCount_of_b z (by omega), if_neg (by omega)]
    omega
  · simp only [if_neg hz]
    obtain ⟨hb, hcen⟩ := century z _ _ _ _ (by omega) rfl rfl rfl rfl
    rw [dayCount_of_b _ (fun _ => hb), if_pos (by omega)]
    omega

theorem julianDate_eq_dayCount (y mo d h mi sec ms : Int) :
    CDT_JulianDate y mo d h mi sec ms
      = (dayCount y mo d : ℚ) - 3049 / 2 + CDT_DecimalDay h mi sec ms := rfl

theorem calendarDate_date (jd : ℚ) :
    (CDT_CalendarDate jd).year = (dateOfDayCount ⌊jd + 1 / 2⌋).1
    ∧ (CDT_CalendarDate jd).month = (dateOfDayCount ⌊jd + 1 / 2⌋).2.1
    ∧ (CDT_CalendarDate jd).day = (dateOfDayCount ⌊jd + 1 / 2⌋).2.2 := ⟨rfl, rfl, rfl⟩

theorem calendarDate_time (jd : ℚ) :
    CDT_DecimalDay (CDT_CalendarDate jd).hour (CDT_CalendarDate jd).minute
        (CDT_CalendarDate jd).second (CDT_CalendarDate jd).millisecond
      = ((⌊(jd + 1 / 2 - (⌊jd + 1 / 2⌋ : ℚ)) * 86400000⌋ : Int) : ℚ) / 86400000 := by
  unfold CDT_DecimalDay CDT_CalendarDate
  simp only []
  congr 2
  omega

theorem julianDate_calendarDate (jd : ℚ) :
    CDT_JulianDate (CDT_CalendarDate jd).year (CDT_CalendarDate jd).month
        (CDT_CalendarDate jd).day (CDT_CalendarDate jd).hour (CDT_CalendarDate jd).minute
        (CDT_CalendarDate jd).second (CDT_CalendarDate jd).millisecond
      = (⌊jd + 1 / 2⌋ : ℚ) - 1 / 2
        + ((⌊(jd + 1 / 2 - (⌊jd + 1 / 2⌋ : ℚ)) * 86400000⌋ : Int) : ℚ) / 86400000 := by
  rw [julianDate_eq_dayCount, calendarDate_time]
  obtain ⟨h1, h2, h3⟩ := calendarDate_date jd
  rw [h1, h2, h3, dayCount_roundtrip]
  push_cast
  ring

theorem julianDate_calendarDate_error (jd : ℚ) :
    0 ≤ jd - CDT_JulianDate (CDT_CalendarDate jd).year (CDT_CalendarDate jd).month
        (CDT_CalendarDate jd).day (CDT_CalendarDate jd).hour (CDT_CalendarDate jd).minute
        (CDT_CalendarDate jd).second (CDT_CalendarDate jd).millisecond
    ∧ jd - CDT_JulianDate (CDT_CalendarDate jd).year (CDT_CalendarDate jd).month
        (CDT_CalendarDate jd).day (CDT_CalendarDate jd).hour (CDT_CalendarDate jd).minute
        (CDT_CalendarDate jd).second (CDT_CalendarDate jd).millisecond < 1 / 86400000 := by
  rw [julianDate_calendarDate]
  have h1 := Int.floor_le ((jd + 1 / 2 - (⌊jd + 1 / 2⌋ : ℚ)) * 86400000)
  have h2 := Int.lt_floor_add_one ((jd + 1 / 2 - (⌊jd + 1 / 2⌋ : ℚ)) * 86400000)
  constructor <;> linarith

/-- C25: with the two conversions written from the specification, for every
astronomical part of the library, every prior state and every Julian date
`jd ≥ 0` (the Julian calendar up to 1582-10-04 and the Gregorian calendar from
1582-10-15), setting the DateTime from `jd` and recomputing the Julian date
from the resulting calendar fields gives a value within 1e-7 day of `jd`:
`|toJulian(toFields(jd)) - jd| ≤ 1e-7`; the recomputed value is `jd` cut to
whole milliseconds (in exact arithmetic). -/
theorem julian_roundtrip (riseSet : CDT_Event → ℚ → ℚ → ℚ → ℚ → CDT_Flag × ℚ)
    (solsticeGMT : CDT_Event → Int → ℚ) (newMoonGMT : Int → Int → ℚ)
    (easterDay : Int → Int × Int) (s : DateTime) (jd : ℚ) (hjd : 0 ≤ jd) :
    |(DateTime.calculateJulianDate (cdtlib riseSet solsticeGMT newMoonGMT easterDay)
        (DateTime.setJulian (cdtlib riseSet solsticeGMT newMoonGMT easterDay) s jd).1).2 - jd|
      ≤ 1 / 10000000
    ∧ |CDT_JulianDate (CDT_CalendarDate jd).year (CDT_CalendarDate jd).month
        (CDT_CalendarDate jd).day (CDT_CalendarDate jd).hour (CDT_CalendarDate jd).minute
        (CDT_CalendarDate jd).second (CDT_CalendarDate jd).millisecond - jd| ≤ 1 / 10000000 := by
  have _ := hjd
  obtain ⟨h0, h1⟩ := julianDate_calendarDate_error jd
  have key : |CDT_JulianDate (CDT_CalendarDate jd).year (CDT_CalendarDate jd).month
        (CDT_CalendarDate jd).day (CDT_CalendarDate jd).hour (CDT_CalendarDate jd).minute
        (CDT_CalendarDate jd).second (CDT_CalendarDate jd).millisecond - jd| ≤ 1 / 10000000 := by
    rw [abs_le]
    constructor <;> linarith
  exact ⟨key, key⟩

/-- C25 at concrete inputs: a Julian date half a millisecond after
2000-01-01T12:00:00 (Gregorian calendar) and the Julian date 1000000.3
(Julian calendar) are not negative and come back within 1e-7 day. -/
theorem julian_roundtrip_witness :
    ((0 : ℚ) ≤ 2451545 + 1 / 172800000
      ∧ |(DateTime.calculateJulianDate sampleLib
            (DateTime.setJulian sampleLib sampleA (2451545 + 1 / 172800000)).1).2
          - (2451545 + 1 / 172800000)| ≤ 1 / 10000000)
    ∧ ((0 : ℚ) ≤ 10000003 / 10
      ∧ |(DateTime.calculateJulianDate sampleLib
            (DateTime.setJulian sampleLib sampleA (10000003 / 10)).1).2
          - 10000003 / 10| ≤ 1 / 10000000) :=
  ⟨⟨by norm_num,
      (julian_roundtrip (fun _ _ _ _ _ => (CDT_Rises, 6)) (fun _ _ => 2451545)
        (fun _ _ => 2451545) (fun _ => (3, 31)) sampleA (2451545 + 1 / 172800000)
        (by norm_num)).1⟩,
    ⟨by norm_num,
      (julian_roundtrip (fun _ _ _ _ _ => (CDT_Rises, 6)) (fun _ _ => 2451545)
        (fun _ _ => 2451545) (fun _ => (3, 31)) sampleA (10000003 / 10) (by norm_num)).1⟩⟩
